import Mathlib

/-!
Verification of the message-normalization / session-management layer of the
`areumtecnologia/baileys` repository against its natural-language specification.

The development shallowly embeds the JavaScript sources:

* `src/utils/message-normalizer.js` (`MessageNormalizer`): raw protocol envelopes
  are plain first-order data (`RawMessage`, `MessageContent`); JavaScript values
  that can occupy a dynamically-typed parameter slot are a small sum (`JsObj`);
  a rejected promise / thrown exception is `Except.error`; `null`/`undefined`
  results are `Option.none`.
* `src/utils/message-store.js` (`MessageStore`): the JSON-file-backed store.
  In-memory JavaScript values are `JsVal` (including `Date` objects and
  function values); the file system is a map from paths to file states; the
  `JSON.stringify`/`JSON.parse` round trip applied on write is `jsonify`.
* `src/index.js` / `src/utils/generic-utils.js` (`Client`): the
  `connection.update` close branch and the `messages.upsert` handler are pure
  functions from their inputs to the list of emitted events plus the store
  effect.

External collaborators (the wrapped baileys transport, crypto primitives,
`jidNormalizedUser`, vote decryption, SHA-256 hashing) are oracles carried by
the `Client` record; the repository code is modelled operation by operation.
-/

namespace Baileys

/-! ## JavaScript-flavoured primitives

Truthiness of the optional string/number/bool fields that the source probes
with `||` and `!`/`!!`: `undefined` and the empty string are falsy, objects and
arrays (even empty ones) are truthy. -/

/-- Value of the JavaScript expression `a || b` for two optional strings
(`some ""` is falsy). -/
def jsOrStr (a b : Option String) : Option String :=
  match a with
  | some s => if s = "" then b else some s
  | none => b

/-- Truthiness of an optional string (`undefined` and `""` are falsy). -/
def jsTruthyStr (a : Option String) : Bool :=
  match a with
  | some s => s ≠ ""
  | none => false

/-- Truthiness of an optional boolean (`!!x`). -/
def jsTruthyB (a : Option Bool) : Bool := a.getD false

/-- Value of `a || b` for object-valued operands: `a` when present. -/
def jsOrOpt {α : Type} (a b : Option α) : Option α :=
  match a with
  | some x => some x
  | none => b

/-! ## Wire model: message keys and message content

`proto.WebMessageInfo` and `proto.Message` are deeply optional wire records.
Every field the repository reads is modelled; fields the repository only tests
for presence are `Option Unit`.  The content type is recursive (edited
messages, quoted messages, associated-child messages embed a full message), so
the record shapes are parametrised by the recursive occurrence `M` and tied
into a nested inductive `MessageContent`. -/

/-- Message key (`rawMessage.key`); every component can be absent on
synthesised envelopes, matching the JavaScript objects the source builds. -/
structure MsgKey where
  remoteJid : Option String
  id : Option String
  fromMe : Bool
  participant : Option String
  deriving Repr, DecidableEq

/-- Context info (`contextInfo` / `messageContextInfo`), parametrised by the
message-content type `M` (the quoted message is a full message). -/
structure ContextInfoF (M : Type) where
  quotedMessage : Option M
  stanzaId : Option String
  participant : Option String
  isForwarded : Option Bool
  forwardingScore : Option Int
  mentionedJid : Option (List String)
  messageSecret : Option (List Nat)

/-- Extended text message (`extendedTextMessage`). -/
structure ExtendedTextF (M : Type) where
  text : Option String
  contextInfo : Option (ContextInfoF M)

/-- Shared shape of the media variants (image/video/audio/document/sticker). -/
structure MediaMsgF (M : Type) where
  mimetype : Option String
  fileName : Option String
  title : Option String
  caption : Option String
  seconds : Option Int
  ptt : Option Bool
  gifPlayback : Option Bool
  viewOnce : Option Bool
  contextInfo : Option (ContextInfoF M)

/-- Inner wrapper of `documentWithCaptionMessage` (`.message`). -/
structure DocInnerF (M : Type) where
  documentMessage : Option (MediaMsgF M)

/-- Document-with-caption wrapper (`documentWithCaptionMessage`). -/
structure DocWithCaptionF (M : Type) where
  message : Option (DocInnerF M)

/-- Location message (`locationMessage`); coordinates are modelled as integers
(the source only copies them into the normalized record). -/
structure LocationMsgF (M : Type) where
  degreesLatitude : Option Int
  degreesLongitude : Option Int
  contextInfo : Option (ContextInfoF M)

/-- Single contact card (`contactMessage`). -/
structure ContactMsgF (M : Type) where
  vcard : Option String
  contextInfo : Option (ContextInfoF M)

/-- Contact array message (`contactsArrayMessage`). -/
structure ContactsArrayF (M : Type) where
  contacts : Option (List (ContactMsgF M))
  contextInfo : Option (ContextInfoF M)

/-- Buttons response (`buttonsResponseMessage`). -/
structure ButtonsResponseF (M : Type) where
  selectedButtonId : Option String
  selectedDisplayText : Option String
  contextInfo : Option (ContextInfoF M)

/-- Selection payload of a list response (`singleSelectReply`). -/
structure SingleSelectReply where
  selectedRowId : Option String
  deriving Repr, DecidableEq

/-- List response (`listResponseMessage`). -/
structure ListResponseF (M : Type) where
  title : Option String
  singleSelectReply : Option SingleSelectReply
  contextInfo : Option (ContextInfoF M)

/-- Reaction message (`reactionMessage`). -/
structure ReactionMsgF (M : Type) where
  text : Option String
  key : Option MsgKey
  senderTimestampMs : Option Int
  contextInfo : Option (ContextInfoF M)

/-- One poll option (`options[i]`). -/
structure PollOptionW where
  optionName : Option String
  optionHash : Option String
  deriving Repr, DecidableEq

/-- Poll creation message (`pollCreationMessage` / `pollCreationMessageV3`). -/
structure PollCreationMsgF (M : Type) where
  name : Option String
  options : Option (List PollOptionW)
  selectableOptionsCount : Option Int
  messageTimestamp : Option Int
  contextInfo : Option (ContextInfoF M)

/-- Poll update (vote) message (`pollUpdateMessage`); the encrypted vote
payload is opaque to the repository and modelled by an abstract handle. -/
structure PollUpdateMsgF (M : Type) where
  pollCreationMessageKey : Option MsgKey
  vote : Option Nat
  senderTimestampMs : Option Int
  contextInfo : Option (ContextInfoF M)

/-- Template button reply (`templateButtonReplyMessage`). -/
structure TemplateButtonReplyF (M : Type) where
  selectedDisplayText : Option String
  contextInfo : Option (ContextInfoF M)

/-- Question reply (`questionReplyMessage`); its `message` field is again a
full message content. -/
structure QuestionReplyF (M : Type) where
  selectedButtonId : Option String
  selectedDisplayText : Option String
  question : Option String
  answer : Option String
  messageTimestamp : Option Int
  message : Option M
  contextInfo : Option (ContextInfoF M)

/-- Interactive button entry (`interactiveButtons[i]`). -/
structure IButton where
  name : Option String
  buttonParamsJson : Option String
  deriving Repr, DecidableEq

/-- Interactive message (`interactiveMessage`); `interactiveList` is only
tested for presence by the source. -/
structure InteractiveMsgF (M : Type) where
  interactiveButtons : Option (List IButton)
  interactiveList : Option Unit
  contextInfo : Option (ContextInfoF M)

/-- Native flow response (`nativeFlowResponseMessage`). -/
structure NativeFlowResponse where
  name : Option String
  paramsJson : Option String
  deriving Repr, DecidableEq

/-- Body of an interactive response (`body`). -/
structure InteractiveBody where
  text : Option String
  deriving Repr, DecidableEq

/-- Interactive response message (`interactiveResponseMessage`). -/
structure InteractiveResponseF (M : Type) where
  nativeFlowResponseMessage : Option NativeFlowResponse
  body : Option InteractiveBody
  contextInfo : Option (ContextInfoF M)

/-- Associated child message wrapper (`associatedChildMessage`). -/
structure AssociatedChildF (M : Type) where
  message : Option M

/-- Protocol message (`protocolMessage`): edit wrappers carry the replacement
content and the original key. -/
structure ProtocolMsgF (M : Type) where
  editedMessage : Option M
  key : Option MsgKey

/-- The `proto.Message` union, parametrised by the recursive occurrence.
Field order matters: JavaScript `Object.keys` enumerates keys in insertion
order, which for decoded protobuf messages puts the content field first and
`messageContextInfo` last; the model fixes that order as the declaration
order below. -/
structure MessageContentF (M : Type) where
  conversation : Option String
  extendedTextMessage : Option (ExtendedTextF M)
  imageMessage : Option (MediaMsgF M)
  albumMessage : Option Unit
  videoMessage : Option (MediaMsgF M)
  audioMessage : Option (MediaMsgF M)
  documentMessage : Option (MediaMsgF M)
  documentWithCaptionMessage : Option (DocWithCaptionF M)
  stickerMessage : Option (MediaMsgF M)
  locationMessage : Option (LocationMsgF M)
  contactMessage : Option (ContactMsgF M)
  contactsArrayMessage : Option (ContactsArrayF M)
  buttonsResponseMessage : Option (ButtonsResponseF M)
  listResponseMessage : Option (ListResponseF M)
  reactionMessage : Option (ReactionMsgF M)
  pollCreationMessage : Option (PollCreationMsgF M)
  pollCreationMessageV3 : Option (PollCreationMsgF M)
  pollUpdateMessage : Option (PollUpdateMsgF M)
  templateButtonReplyMessage : Option (TemplateButtonReplyF M)
  pinInChatMessage : Option Unit
  unpinInChatMessage : Option Unit
  questionReplyMessage : Option (QuestionReplyF M)
  interactiveMessage : Option (InteractiveMsgF M)
  interactiveResponseMessage : Option (InteractiveResponseF M)
  associatedChildMessage : Option (AssociatedChildF M)
  protocolMessage : Option (ProtocolMsgF M)
  messageContextInfo : Option (ContextInfoF M)

set_option maxHeartbeats 3200000 in
/-- Recursive knot for message content. -/
inductive MessageContent where
  | mk : MessageContentF MessageContent → MessageContent

/-- Projection out of the recursive knot. -/
def MessageContent.core : MessageContent → MessageContentF MessageContent
  | .mk c => c

/-- The all-absent message content (used with structure-update syntax to build
concrete envelopes). -/
def MessageContentF.empty : MessageContentF MessageContent :=
  { conversation := none, extendedTextMessage := none, imageMessage := none
    albumMessage := none, videoMessage := none, audioMessage := none
    documentMessage := none, documentWithCaptionMessage := none
    stickerMessage := none, locationMessage := none, contactMessage := none
    contactsArrayMessage := none, buttonsResponseMessage := none
    listResponseMessage := none, reactionMessage := none
    pollCreationMessage := none, pollCreationMessageV3 := none
    pollUpdateMessage := none, templateButtonReplyMessage := none
    pinInChatMessage := none, unpinInChatMessage := none
    questionReplyMessage := none, interactiveMessage := none
    interactiveResponseMessage := none, associatedChildMessage := none
    protocolMessage := none, messageContextInfo := none }

/-- Instantiated context info. -/
abbrev ContextInfo := ContextInfoF MessageContent

/-- Raw envelope (`proto.WebMessageInfo`): the parts the repository reads.
Synthesised envelopes can lack the key or timestamp, matching the object
literals the source builds. -/
structure RawMessage where
  key : Option MsgKey
  message : Option MessageContent
  pushName : Option String
  messageTimestamp : Option Int
  broadcast : Bool
  verifiedBizName : Option String

/-! ## The client and the dynamically-typed parameter slots

`MessageNormalizer.normalize` has signature `(contact, rawMessage, client)`,
but the recursive call sites inside it pass only two arguments, so arbitrary
kinds of objects can occupy each slot.  `JsObj` is the sum of the object kinds
that actually flow there; property accesses on it mirror JavaScript (absent
property gives `undefined`, property access on `undefined` throws). -/

deriving instance DecidableEq for Except

/-- The authenticated user record (`this.user`, resolved after connect). -/
structure UserInfo where
  name : Option String

/-- A message as returned by `client.store.getMessage`: the normalizer only
consults its `raw` field (message-normalizer.js lines 232-283), which holds
the original raw envelope. -/
structure StoredMsg where
  raw : Option RawMessage

/-- Parameters handed to the external `decryptPollVote` primitive. -/
structure DecryptParams where
  pollCreatorJid : Option String
  pollMsgId : Option String
  pollEncKey : List Nat
  voterJid : Option String

/-- Result of the external `decryptPollVote` primitive: a list of raw option
hashes (byte blobs). -/
structure DecryptedVote where
  selectedOptions : List (List Nat)

/-- The client instance as consumed by the normalizer.  The external
collaborators (`jidNormalizedUser`, the pluggable store's `getMessage`, the
transport's `decryptPollVote`, `Buffer`/crypto hex and SHA-256 rendering) are
oracles; `sockUserId` is `this.sock.user.id` (the normalizer is only invoked
on a connected client). -/
structure Client where
  user : Option UserInfo
  sockUserId : String
  jidNormalize : Option String → String
  storeGetMessage : Option String → Option String → Option StoredMsg
  decryptPollVote : Option Nat → DecryptParams → Except String DecryptedVote
  hexUpper : List Nat → String
  sha256hexUpper : String → String

/-- The canonical contact record (ContactHandler); the normalizer reads only
`id` and `name` from it (both can be `undefined` upstream). -/
structure Contact where
  id : Option String
  name : Option String

/-- A JavaScript value occupying one of `normalize`'s parameter slots. -/
inductive JsObj where
  | undef
  | contact (ct : Contact)
  | client (cl : Client)
  | rawMsg (r : RawMessage)

/-- The `message` property of the value in the `rawMessage` slot: only raw
envelopes carry one; `Client`/`Contact` instances and `undefined` do not (for
`undefined` the `!rawMessage` guard short-circuits first). -/
def JsObj.messageProp : JsObj → Option MessageContent
  | .rawMsg r => r.message
  | _ => none

/-- The `id` property of the value in the `contact` slot; property access on
`undefined` throws. -/
def JsObj.idProp : JsObj → Except String (Option String)
  | .undef => .error "TypeError: cannot read id of undefined"
  | .contact ct => .ok ct.id
  | .client _ => .ok none
  | .rawMsg _ => .ok none

/-- The `name` property of the value in the `contact` slot. -/
def JsObj.nameProp : JsObj → Except String (Option String)
  | .undef => .error "TypeError: cannot read name of undefined"
  | .contact ct => .ok ct.name
  | .client _ => .ok none
  | .rawMsg _ => .ok none

/-- Using the value in the `client` slot as a client
(`client.jidNormalizedUser(client.sock.user.id)` throws unless it is an
actual client instance). -/
def JsObj.asClient : JsObj → Except String Client
  | .client cl => .ok cl
  | .undef => .error "TypeError: cannot read jidNormalizedUser of undefined"
  | _ => .error "TypeError: client.jidNormalizedUser is not a function"

/-- Reading `client.user.name` (`this.user` is set on the `open` event and may
be absent). -/
def Client.userNameProp (cl : Client) : Except String (Option String) :=
  match cl.user with
  | none => .error "TypeError: cannot read name of undefined"
  | some u => .ok u.name

/-! ## The normalized message model

`CanonicalMessage` as constructed by `MessageNormalizer.normalize`
(message-normalizer.js lines 40-66, enriched in lines 68-83).  The
`quotedMessage` field stores the value the source assigns: `null`, or the
*unawaited promise* of the recursive call; a promise is modelled by its
settlement (`Except.error` = rejected, `.ok` = resolved).  This makes the
record recursive, tied below into a nested inductive. -/

/-- Degraded-or-successful decrypted poll vote (the object shapes returned by
`_extractPollUpdate`). -/
structure PollUpd where
  pollCreationMessageId : Option String
  voterTimestampMs : Option Int
  selectedOptions : List String
  success : Option Bool
  error : Option String
  code : Option String
  deriving Repr, DecidableEq

/-- The captured `rootData` of the media descriptor's deferred
attachment-fetch closure (`() => client.messages.getAttachments(rootData)`);
the closure itself is opaque, only its captured root is recorded. -/
inductive AttachmentRoot where
  | fromDocWrap (d : DocWithCaptionF MessageContent)
  | fromContent (c : MessageContent)

/-- Media descriptor (`normalized.media`). -/
structure MediaInfo where
  mimetype : Option String
  fileName : Option String
  caption : Option String
  duration : Option Int
  isPtt : Bool
  isGif : Bool
  isViewOnce : Bool
  getAttachments : AttachmentRoot

/-- Location payload (`normalized.location`). -/
structure LocationInfo where
  latitude : Option Int
  longitude : Option Int
  deriving Repr, DecidableEq

/-- A parsed vcard contact (`_extractContacts`). -/
structure ContactCard where
  name : String
  number : String
  deriving Repr, DecidableEq

/-- Interactive reply payload (`_extractInteractiveReply`). -/
structure InteractiveReply where
  id : Option String
  text : Option String
  deriving Repr, DecidableEq

/-- Reaction payload (`_extractReaction`). -/
structure ReactionInfo where
  emoji : Option String
  reactedMessageId : Option String
  senderTimestampMs : Option Int
  deriving Repr, DecidableEq

/-- Creator sub-record of a poll creation (`poll.creator`). -/
structure CreatorInfo where
  jid : Option String
  pushName : Option String
  verifiedBizName : Option String
  deriving Repr, DecidableEq

/-- Extracted poll creation (`_extractPollCreation`). -/
structure PollCreationInfo where
  id : Option String
  creator : CreatorInfo
  name : Option String
  selectableOptionsCount : Option Int
  allowsMultipleAnswers : Bool
  options : List PollOptionW
  messageSecret : Option (List Nat)
  senderTimestampMs : Option Int
  raw : PollCreationMsgF MessageContent

/-- The normalized message record, parametrised by the recursive occurrence
`N` in the quoted-message slot.  `from`/`to` are reserved words in Lean and
are rendered `msgFrom`/`msgTo`; timestamps are epoch milliseconds (`none`
models an invalid date built from an undefined wire timestamp). -/
structure NormalizedF (N : Type) where
  id : Option String
  chat : JsObj
  fromMe : Bool
  msgFrom : Option String
  fromPushName : Option String
  msgTo : Option String
  type : String
  body : String
  hasMedia : Bool
  media : Option MediaInfo
  location : Option LocationInfo
  contacts : List ContactCard
  isReply : Bool
  quotedMessage : Option (Except String (Option N))
  isForwarded : Bool
  forwardingScore : Int
  mentions : List String
  isMentioningMe : Bool
  isEdited : Bool
  interactiveReply : Option InteractiveReply
  reaction : Option ReactionInfo
  pollUpdate : Option PollUpd
  poll : Option PollCreationInfo
  timestamp : Option Int
  raw : RawMessage

set_option maxHeartbeats 3200000 in
/-- Recursive knot for normalized messages. -/
inductive Normalized where
  | mk : NormalizedF Normalized → Normalized

/-- Projection out of the recursive knot. -/
def Normalized.core : Normalized → NormalizedF Normalized
  | .mk c => c

/-! ## MessageNormalizer (src/utils/message-normalizer.js)

Static helpers first, then `normalize`.  The JavaScript functions are `async`;
their result is the settlement of the returned promise (`Except.error` models
a thrown exception / rejected promise). -/

namespace MessageNormalizer

open Baileys

/-- Names of the present keys of a message object, in the fixed key order
documented on `MessageContentF` (models `Object.keys(rawMessage.message)`). -/
def presentKeys (m : MessageContent) : List String :=
  ([("conversation", m.core.conversation.isSome),
    ("extendedTextMessage", m.core.extendedTextMessage.isSome),
    ("imageMessage", m.core.imageMessage.isSome),
    ("albumMessage", m.core.albumMessage.isSome),
    ("videoMessage", m.core.videoMessage.isSome),
    ("audioMessage", m.core.audioMessage.isSome),
    ("documentMessage", m.core.documentMessage.isSome),
    ("documentWithCaptionMessage", m.core.documentWithCaptionMessage.isSome),
    ("stickerMessage", m.core.stickerMessage.isSome),
    ("locationMessage", m.core.locationMessage.isSome),
    ("contactMessage", m.core.contactMessage.isSome),
    ("contactsArrayMessage", m.core.contactsArrayMessage.isSome),
    ("buttonsResponseMessage", m.core.buttonsResponseMessage.isSome),
    ("listResponseMessage", m.core.listResponseMessage.isSome),
    ("reactionMessage", m.core.reactionMessage.isSome),
    ("pollCreationMessage", m.core.pollCreationMessage.isSome),
    ("pollCreationMessageV3", m.core.pollCreationMessageV3.isSome),
    ("pollUpdateMessage", m.core.pollUpdateMessage.isSome),
    ("templateButtonReplyMessage", m.core.templateButtonReplyMessage.isSome),
    ("pinInChatMessage", m.core.pinInChatMessage.isSome),
    ("unpinInChatMessage", m.core.unpinInChatMessage.isSome),
    ("questionReplyMessage", m.core.questionReplyMessage.isSome),
    ("interactiveMessage", m.core.interactiveMessage.isSome),
    ("interactiveResponseMessage", m.core.interactiveResponseMessage.isSome),
    ("associatedChildMessage", m.core.associatedChildMessage.isSome),
    ("protocolMessage", m.core.protocolMessage.isSome),
    ("messageContextInfo", m.core.messageContextInfo.isSome)]).filterMap
    (fun kv => if kv.2 then some kv.1 else none)

/-- Models `Object.keys(rawMessage.message)[0]` (message-normalizer.js
line 31). -/
def firstKey (m : MessageContent) : Option String :=
  (presentKeys m).head?

/-- Models `Object.keys(message).find(key => key != "messageContextInfo")`
(message-normalizer.js line 151). -/
def firstContentKey (m : MessageContent) : Option String :=
  ((presentKeys m).filter (· ≠ "messageContextInfo")).head?

/-- The `contextInfo` property of `rawMessage.message[originalType]`
(message-normalizer.js line 34, first disjunct).  Primitive values
(`conversation` is a string) and variants whose wire shape carries no
`contextInfo` yield `undefined`. -/
def firstCtx (m : MessageContent) : Option ContextInfo :=
  match firstKey m with
  | some "extendedTextMessage" => m.core.extendedTextMessage.bind (·.contextInfo)
  | some "imageMessage" => m.core.imageMessage.bind (·.contextInfo)
  | some "videoMessage" => m.core.videoMessage.bind (·.contextInfo)
  | some "audioMessage" => m.core.audioMessage.bind (·.contextInfo)
  | some "documentMessage" => m.core.documentMessage.bind (·.contextInfo)
  | some "stickerMessage" => m.core.stickerMessage.bind (·.contextInfo)
  | some "locationMessage" => m.core.locationMessage.bind (·.contextInfo)
  | some "contactMessage" => m.core.contactMessage.bind (·.contextInfo)
  | some "contactsArrayMessage" => m.core.contactsArrayMessage.bind (·.contextInfo)
  | some "buttonsResponseMessage" => m.core.buttonsResponseMessage.bind (·.contextInfo)
  | some "listResponseMessage" => m.core.listResponseMessage.bind (·.contextInfo)
  | some "reactionMessage" => m.core.reactionMessage.bind (·.contextInfo)
  | some "pollCreationMessage" => m.core.pollCreationMessage.bind (·.contextInfo)
  | some "pollCreationMessageV3" => m.core.pollCreationMessageV3.bind (·.contextInfo)
  | some "pollUpdateMessage" => m.core.pollUpdateMessage.bind (·.contextInfo)
  | some "templateButtonReplyMessage" => m.core.templateButtonReplyMessage.bind (·.contextInfo)
  | some "questionReplyMessage" => m.core.questionReplyMessage.bind (·.contextInfo)
  | some "interactiveMessage" => m.core.interactiveMessage.bind (·.contextInfo)
  | some "interactiveResponseMessage" => m.core.interactiveResponseMessage.bind (·.contextInfo)
  | some "messageContextInfo" => m.core.messageContextInfo
  | _ => none

/-- Evaluation of the repeated guard
`message.interactiveMessage && message.interactiveMessage.interactiveButtons
&& message.interactiveMessage.interactiveButtons[0].name` of
`_getFriendlyType` (lines 112-118): an empty array is truthy, so an empty
`interactiveButtons` reaches `[0].name` and throws. -/
def interactiveHeadName (m : MessageContent) : Except String (Option (Option String)) :=
  match m.core.interactiveMessage with
  | none => .ok none
  | some im =>
    match im.interactiveButtons with
    | none => .ok none
    | some [] => .error "TypeError: cannot read name of undefined"
    | some (b :: _) => .ok (some b.name)

/-- Tail of the `_getFriendlyType` guard chain (lines 111-128): the
interactive-message probes, entered only when none of the earlier variants
matched. -/
def interactiveFriendlyType (m : MessageContent) : Except String String :=
  match interactiveHeadName m with
  | .error e => .error e
  | .ok hd =>
    if hd = some (some "review_and_pay") then .ok "review_and_pay"
    else if hd = some (some "review_order") then .ok "review_order"
    else if hd = some (some "quick_reply") then .ok "quick_reply"
    else if hd = some (some "cta_url") then .ok "cta_url"
    else if hd = some (some "cta_copy") then .ok "cta_copy"
    else if hd = some (some "cta_call") then .ok "cta_call"
    else if hd = some (some "voice_call") then .ok "voice_call"
    else if (m.core.interactiveResponseMessage.bind (·.nativeFlowResponseMessage)).any
        (fun nf => nf.name = some "menu_options") then .ok "native_flow_menu_options_response"
    else if (m.core.interactiveResponseMessage.bind (·.nativeFlowResponseMessage)).isSome then
      .ok "native_flow_response"
    else if (m.core.interactiveMessage.bind (·.interactiveButtons)).isSome then .ok "interactive_buttons"
    else if (m.core.interactiveMessage.bind (·.interactiveList)).isSome then .ok "interactive_list"
    else if m.core.interactiveResponseMessage.isSome then .ok "interactive_response"
    else if m.core.interactiveMessage.isSome then .ok "interactive_message"
    else .ok "unknown"

/-- The friendly-type values `_getFriendlyType` can return. -/
def friendlyTypeValues : List String :=
  ["text", "image", "album", "video", "audio", "document", "sticker",
   "location", "contact", "interactive_reply", "reaction", "poll_creation",
   "poll_update", "template_button_reply", "pin_in_chat", "unpin_in_chat",
   "question_reply", "review_and_pay", "review_order", "quick_reply",
   "cta_url", "cta_copy", "cta_call", "voice_call",
   "native_flow_menu_options_response", "native_flow_response",
   "interactive_buttons", "interactive_list", "interactive_response",
   "interactive_message", "unknown"]

/-- Model of `MessageNormalizer._getFriendlyType` (lines 89-129).  The guard
chain is translated condition by condition; string fields use JavaScript
truthiness (an empty `conversation` is falsy), object fields are truthy when
present.  The seven `interactiveButtons[0].name` probes share one evaluation
of the head name, which throws exactly when the source line 112 throws. -/
def getFriendlyType (message : Option MessageContent) : Except String String :=
  match message with
  | none => .ok "unknown"
  | some m =>
    if jsTruthyStr m.core.conversation ∨ m.core.extendedTextMessage.isSome then .ok "text"
    else if m.core.imageMessage.isSome then .ok "image"
    else if m.core.albumMessage.isSome then .ok "album"
    else if m.core.videoMessage.isSome ∨
        (m.core.associatedChildMessage.bind (·.message) |>.bind (·.core.videoMessage)).isSome then .ok "video"
    else if m.core.audioMessage.isSome then .ok "audio"
    else if m.core.documentMessage.isSome then .ok "document"
    else if m.core.documentWithCaptionMessage.isSome then .ok "document"
    else if m.core.stickerMessage.isSome then .ok "sticker"
    else if m.core.locationMessage.isSome then .ok "location"
    else if m.core.contactMessage.isSome ∨ m.core.contactsArrayMessage.isSome then .ok "contact"
    else if m.core.buttonsResponseMessage.isSome ∨ m.core.listResponseMessage.isSome then .ok "interactive_reply"
    else if m.core.reactionMessage.isSome then .ok "reaction"
    else if m.core.pollCreationMessage.isSome ∨ m.core.pollCreationMessageV3.isSome then .ok "poll_creation"
    else if m.core.pollUpdateMessage.isSome then .ok "poll_update"
    else if m.core.templateButtonReplyMessage.isSome then .ok "template_button_reply"
    else if m.core.pinInChatMessage.isSome then .ok "pin_in_chat"
    else if m.core.unpinInChatMessage.isSome then .ok "unpin_in_chat"
    else if m.core.questionReplyMessage.isSome then .ok "question_reply"
    else interactiveFriendlyType m

/-- Model of `MessageNormalizer._extractBody` (lines 132-146): the fixed
`||` fallback chain over the text-bearing fields, empty strings skipped,
final fallback the empty string. -/
def extractBody (m : MessageContent) : String :=
  (jsOrStr m.core.conversation
    (jsOrStr (m.core.extendedTextMessage.bind (·.text))
      (jsOrStr (m.core.imageMessage.bind (·.caption))
        (jsOrStr (m.core.videoMessage.bind (·.caption))
          (jsOrStr (m.core.associatedChildMessage.bind (·.message) |>.bind
              (·.core.videoMessage) |>.bind (·.caption))
            (jsOrStr (m.core.documentWithCaptionMessage.bind (·.message) |>.bind
                (·.documentMessage) |>.bind (·.caption))
              (jsOrStr (m.core.buttonsResponseMessage.bind (·.selectedDisplayText))
                (jsOrStr (m.core.listResponseMessage.bind (·.title))
                  (jsOrStr (m.core.templateButtonReplyMessage.bind (·.selectedDisplayText))
                    (jsOrStr (m.core.interactiveResponseMessage.bind (·.body) |>.bind (·.text))
                      (m.core.questionReplyMessage.bind (·.message) |>.bind
                        (·.core.extendedTextMessage) |>.bind (·.text)))))))))))).getD ""

/-- Model of the arrow function `parseVcard` inside `_extractContacts`
(lines 347-354).  The regexes `/FN:(.+)/` and `/waid=(\d+)/` are rendered as
take-until-line-end after the first occurrence of the marker (`.` does not
match line terminators); backslashes are stripped from the name as in the
source. -/
def parseVcard (vcard : String) : ContactCard :=
  let name :=
    match vcard.splitOn "FN:" with
    | _ :: after :: _ =>
      ((after.takeWhile (fun c => c ≠ '\n' ∧ c ≠ '\r')).replace "\\" "")
    | _ => ""
  let number :=
    match vcard.splitOn "waid=" with
    | _ :: after :: _ => after.takeWhile Char.isDigit
    | _ => ""
  ⟨name, number⟩

/-- Model of `MessageNormalizer._extractContacts` (lines 345-363); missing
`vcard` falls back to the `parseVcard` default parameter `''`. -/
def extractContacts (m : MessageContent) : List ContactCard :=
  match m.core.contactMessage with
  | some cm => [parseVcard (cm.vcard.getD "")]
  | none =>
    match m.core.contactsArrayMessage.bind (·.contacts) with
    | some cs => cs.map (fun c => parseVcard (c.vcard.getD ""))
    | none => []

/-- Model of `MessageNormalizer._extractInteractiveReply` (lines 182-197).
The `interactiveResponseMessage` arm reads
`interactiveReply.nativeFlowResponseMessage.name` without a guard and throws
when the native flow payload is absent. -/
def extractInteractiveReply (m : MessageContent) : Except String (Option InteractiveReply) :=
  match m.core.buttonsResponseMessage with
  | some br => .ok (some ⟨br.selectedButtonId, br.selectedDisplayText⟩)
  | none =>
    match m.core.listResponseMessage with
    | some lr => .ok (some ⟨lr.singleSelectReply.bind (·.selectedRowId), lr.title⟩)
    | none =>
      match m.core.interactiveResponseMessage with
      | some ir =>
        match ir.nativeFlowResponseMessage with
        | none => .error "TypeError: cannot read name of undefined"
        | some nf => .ok (some ⟨nf.name, nf.paramsJson⟩)
      | none =>
        match m.core.questionReplyMessage with
        | some qr => .ok (some ⟨qr.selectedButtonId, qr.selectedDisplayText⟩)
        | none => .ok none

/-- Model of `MessageNormalizer._extractReaction` (lines 199-208); the
unguarded `reaction.key.id` throws when the key is absent. -/
def extractReaction (m : MessageContent) : Except String (Option ReactionInfo) :=
  match m.core.reactionMessage with
  | none => .ok none
  | some rx =>
    match rx.key with
    | none => .error "TypeError: cannot read id of undefined"
    | some rk => .ok (some ⟨rx.text, rk.id, rx.senderTimestampMs⟩)

/-- Model of `MessageNormalizer._extractPollCreation` (lines 317-343).  Note
that `message?.pollCreationMessage || message.pollCreationMessageV3` guards
only the first access, so an absent `message` throws (unreachable from
`normalize`, which only calls it with a message present). -/
def extractPollCreation (raw : RawMessage) : Except String (Option PollCreationInfo) :=
  match raw.message with
  | none => .error "TypeError: cannot read pollCreationMessageV3 of undefined"
  | some mc =>
    match jsOrOpt mc.core.pollCreationMessage mc.core.pollCreationMessageV3 with
    | none => .ok none
    | some poll =>
      match raw.key with
      | none => .error "TypeError: cannot read id of undefined"
      | some k =>
        .ok (some
          { id := k.id
            creator := ⟨k.remoteJid, raw.pushName, raw.verifiedBizName⟩
            name := poll.name
            selectableOptionsCount := poll.selectableOptionsCount
            allowsMultipleAnswers := (poll.selectableOptionsCount.getD 0) > 1
            options := (poll.options.getD []).map
              (fun o => ⟨jsOrStr o.optionName none, jsOrStr o.optionHash none⟩)
            messageSecret := mc.core.messageContextInfo.bind (·.messageSecret)
            senderTimestampMs := poll.messageTimestamp.map (· * 1000)
            raw := poll })

/-- The degraded PollState shape shared by the failure paths of
`_extractPollUpdate` (lines 238-243, 248-253, 261-266, 307-313): empty
selections plus an explicit error reason.  The `code` field is `err.code`
(absent for the plain error strings modelled here). -/
def degradedPollUpd (ck : MsgKey) (pu : PollUpdateMsgF MessageContent) (e : String) : PollUpd :=
  { pollCreationMessageId := ck.id
    voterTimestampMs := pu.senderTimestampMs
    selectedOptions := []
    success := none
    error := some e
    code := none }

/-- Hash of one poll option label:
`digestSync("SHA-256", new TextEncoder().encode(Buffer.from(option.optionName).toString()))`
rendered hex-uppercase.  `Buffer.from(undefined)` throws. -/
def hashOfOption (cl : Client) (o : PollOptionW) : Except String String :=
  match o.optionName with
  | none => .error "TypeError: first argument must be a string or similar"
  | some nm => .ok (cl.sha256hexUpper nm)

/-- Inner loop of the vote-resolution (lines 282-290): first option whose
label hash equals the decrypted hash, scanning in order and stopping at the
first match. -/
def findOptionByHash (cl : Client) (hashHex : String) : List PollOptionW → Except String (Option String)
  | [] => .ok none
  | o :: rest => do
    let h ← hashOfOption cl o
    if h = hashHex then .ok o.optionName else findOptionByHash cl hashHex rest

/-- Outer loop of the vote-resolution (lines 279-291): each decrypted hash is
hex-rendered and matched against the creation options; matched labels are
pushed in order. -/
def matchSelectedOptions (cl : Client) : List (List Nat) → List PollOptionW → Except String (List String)
  | [], _ => .ok []
  | dh :: rest, opts => do
    let hashHex := cl.hexUpper dh
    let found ← findOptionByHash cl hashHex opts
    let tail ← matchSelectedOptions cl rest opts
    match found with
    | some nm => .ok (nm :: tail)
    | none => .ok tail

/-- The body of the `try` block of `_extractPollUpdate` (lines 221-298).  An
`Except.error` is a thrown exception, converted by the `catch` clause in
`extractPollUpdate` below.  Structure notes, in source order:
* an absent creation message returns `null` (lines 228-230);
* `pollCreationMessageV3` is folded into `pollCreationMessage` (lines 232-233);
* a creation record without the poll structure degrades with
  "Poll creation message not found" (the second, identical structural check at
  lines 246-254 is unreachable);
* `messageContextInfo.messageSecret` is read unguarded, so an absent
  `messageContextInfo` throws (caught);
* missing secret/name/options degrade with "Incomplete poll creation data"
  (an empty `name` string is falsy). -/
def pollUpdateTry (isGroup : Bool) (clientJid : String) (k : MsgKey) (cl : Client)
    (pu : PollUpdateMsgF MessageContent) (ck : MsgKey) : Except String (Option PollUpd) := do
  match cl.storeGetMessage ck.remoteJid ck.id with
  | none => .ok none
  | some creationMsg =>
    match creationMsg.raw with
    | none => .error "TypeError: cannot read message of undefined"
    | some craw =>
      match craw.message with
      | none => .error "TypeError: cannot read pollCreationMessage of undefined"
      | some cmsg =>
        match jsOrOpt cmsg.core.pollCreationMessage cmsg.core.pollCreationMessageV3 with
        | none => .ok (some (degradedPollUpd ck pu "Poll creation message not found"))
        | some poll =>
          match cmsg.core.messageContextInfo with
          | none => .error "TypeError: cannot read messageSecret of undefined"
          | some ci =>
            if ci.messageSecret.isNone ∨ ¬ jsTruthyStr poll.name ∨ poll.options.isNone then
              .ok (some (degradedPollUpd ck pu "Incomplete poll creation data"))
            else do
              let pollEncKey := ci.messageSecret.getD []
              match craw.key with
              | none => .error "TypeError: cannot read remoteJid of undefined"
              | some ckey => do
                let params : DecryptParams :=
                  { pollCreatorJid := ckey.remoteJid
                    pollMsgId := ckey.id
                    pollEncKey := pollEncKey
                    voterJid :=
                      if isGroup then k.participant
                      else if k.fromMe then some clientJid else k.remoteJid }
                let decrypted ← cl.decryptPollVote pu.vote params
                let selected ← matchSelectedOptions cl decrypted.selectedOptions (poll.options.getD [])
                .ok (some
                  { pollCreationMessageId := ck.id
                    voterTimestampMs := pu.senderTimestampMs
                    selectedOptions := selected
                    success := some (decide (selected.length > 0))
                    error := none
                    code := none })

/-- Model of `MessageNormalizer._extractPollUpdate` (lines 210-315).  The two
statements before the `try` (`msg.key.remoteJid.endsWith('@g.us')` and the
client-jid normalization) run unprotected, so an envelope without a key or
remote jid rejects; everything inside the `try` is converted by the `catch`
into the degraded PollState carrying `err.message`. -/
def extractPollUpdate (msg : RawMessage) (cl : Client) : Except String (Option PollUpd) := do
  match msg.key with
  | none => .error "TypeError: cannot read remoteJid of undefined"
  | some k =>
    match k.remoteJid with
    | none => .error "TypeError: cannot read endsWith of undefined"
    | some rj =>
      let isGroup := rj.endsWith "@g.us"
      let clientJid := cl.jidNormalize (some cl.sockUserId)
      match msg.message.bind (fun mc => mc.core.pollUpdateMessage) with
      | none => .ok none
      | some pu =>
        match pu.pollCreationMessageKey with
        | none => .ok none
        | some ck =>
          match pollUpdateTry isGroup clientJid k cl pu ck with
          | .ok v => .ok v
          | .error e => .ok (some (degradedPollUpd ck pu e))

/-- Result of `_enrichWithTypedData`: the three fields it mutates on the
normalized record. -/
structure EnrichOut where
  hasMedia : Bool
  media : Option MediaInfo
  location : Option LocationInfo

/-- The media sub-object selected by the first content key: either a plain
media variant or the `documentWithCaptionMessage` wrapper. -/
inductive MediaContent where
  | plain (mm : MediaMsgF MessageContent)
  | docWrap (d : DocWithCaptionF MessageContent)

/-- The media variant names probed by `_enrichWithTypedData` (line 157). -/
def mediaTypes : List String :=
  ["imageMessage", "videoMessage", "audioMessage", "documentMessage",
   "stickerMessage", "documentWithCaptionMessage"]

/-- `content[type]` for a media variant name. -/
def mediaContentOf (content : MessageContent) : String → Option MediaContent
  | "imageMessage" => content.core.imageMessage.map .plain
  | "videoMessage" => content.core.videoMessage.map .plain
  | "audioMessage" => content.core.audioMessage.map .plain
  | "documentMessage" => content.core.documentMessage.map .plain
  | "stickerMessage" => content.core.stickerMessage.map .plain
  | "documentWithCaptionMessage" => content.core.documentWithCaptionMessage.map .docWrap
  | _ => none

/-- Builds the media descriptor (lines 160-170).  Each field follows the
source's `own || nested-document` fallback (`messageContent.mimetype ||
messageContent.message?.documentMessage?.mimetype` and so on); `seconds || null`
maps a zero duration to `null`; the attachment closure captures
`rootData = content.documentWithCaptionMessage ? … : content`. -/
def buildMedia (content : MessageContent) (mc : MediaContent) : MediaInfo :=
  let own : MediaMsgF MessageContent → Option (MediaMsgF MessageContent) :=
    fun mm => some mm
  let ownMedia := match mc with
    | .plain mm => own mm
    | .docWrap _ => none
  let nestedDoc := match mc with
    | .plain _ => none
    | .docWrap d => d.message.bind (·.documentMessage)
  { mimetype := jsOrStr (ownMedia.bind (·.mimetype)) (nestedDoc.bind (·.mimetype))
    fileName := jsOrStr (ownMedia.bind (·.fileName)) (nestedDoc.bind (·.title))
    caption := jsOrStr (ownMedia.bind (·.caption)) (nestedDoc.bind (·.caption))
    duration :=
      match ownMedia.bind (·.seconds) with
      | some n => if n = 0 then none else some n
      | none => none
    isPtt := jsTruthyB (ownMedia.bind (·.ptt))
    isGif := jsTruthyB (ownMedia.bind (·.gifPlayback))
    isViewOnce := jsTruthyB (ownMedia.bind (·.viewOnce))
    getAttachments :=
      match content.core.documentWithCaptionMessage with
      | some d => .fromDocWrap d
      | none => .fromContent content }

/-- Enrichment for a given content object and its first non-context key
(lines 156-179): media descriptor for media variants, location payload for
`locationMessage`. -/
def enrichOn (content : MessageContent) : Option String → EnrichOut
  | none => ⟨false, none, none⟩
  | some t =>
    if t ∈ mediaTypes then
      match mediaContentOf content t with
      | some mc => ⟨true, some (buildMedia content mc), none⟩
      | none => ⟨false, none, none⟩
    else if t = "locationMessage" then
      match content.core.locationMessage with
      | some lm => ⟨false, none, some ⟨lm.degreesLatitude, lm.degreesLongitude⟩⟩
      | none => ⟨false, none, none⟩
    else ⟨false, none, none⟩

/-- Model of `MessageNormalizer._enrichWithTypedData` (lines 148-180).  When
the first key is `associatedChildMessage` the inner message becomes the
content (`Object.keys(undefined)` throws when it is absent). -/
def enrichWithTypedData (m : MessageContent) : Except String EnrichOut :=
  match firstContentKey m with
  | some "associatedChildMessage" =>
    match m.core.associatedChildMessage with
    | some acm =>
      match acm.message with
      | none => .error "TypeError: cannot convert undefined or null to object"
      | some inner => .ok (enrichOn inner (firstContentKey inner))
    | none => .ok (enrichOn m (some "associatedChildMessage"))
  | ty => .ok (enrichOn m ty)

/-- The main (non-edit) path of `MessageNormalizer.normalize` (lines 33-87),
for an envelope `r` whose `message` field holds `m` and was not diverted by
the edit check.  The unawaited recursive call that the source stores in
`quotedMessage` (line 82) is abstracted as `recur`; `normalizeFuel` below
instantiates it with the source's arguments-shifted recursive call. -/
def normalizeMain (recur : RawMessage → Except String (Option Normalized))
    (contact client : JsObj) (r : RawMessage) (m : MessageContent) :
    Except String (Option Normalized) := do
  let type0 ← getFriendlyType (some m)
  let contextInfo := jsOrOpt (firstCtx m) m.core.messageContextInfo
  let cl ← client.asClient
  let clientJid := cl.jidNormalize (some cl.sockUserId)
  match r.key with
  | none => .error "TypeError: cannot read fromMe of undefined"
  | some k => do
    let fromMe := k.fromMe
    let ctId ← contact.idProp
    let msgFrom := if fromMe then some clientJid else ctId
    let msgTo := if fromMe then ctId else some clientJid
    let fromPushName ← if fromMe then cl.userNameProp else contact.nameProp
    let iReply ← extractInteractiveReply m
    let reac ← extractReaction m
    let pollU ← extractPollUpdate r cl
    let pollC ← extractPollCreation r
    let enr ← enrichWithTypedData m
    let mentions := (contextInfo.bind (·.mentionedJid)).getD []
    let isReply := (contextInfo.bind (·.quotedMessage)).isSome
    let quoted : Option (Except String (Option Normalized)) :=
      match contextInfo with
      | some ctx =>
        match ctx.quotedMessage with
        | some _ =>
          let quotedRaw : RawMessage :=
            { key := some
                { remoteJid := ctId
                  id := ctx.stanzaId
                  fromMe := cl.jidNormalize ctx.participant == clientJid
                  participant := ctx.participant }
              message := ctx.quotedMessage
              pushName := none, messageTimestamp := none
              broadcast := false, verifiedBizName := none }
          some (recur quotedRaw)
        | none => none
      | none => none
    .ok (some (Normalized.mk
      { id := k.id
        chat := contact
        fromMe := fromMe
        msgFrom := msgFrom
        fromPushName := fromPushName
        msgTo := msgTo
        type := type0
        body := extractBody m
        hasMedia := enr.hasMedia
        media := enr.media
        location := enr.location
        contacts := extractContacts m
        isReply := isReply
        quotedMessage := quoted
        isForwarded := jsTruthyB (contextInfo.bind (·.isForwarded))
        forwardingScore := (contextInfo.bind (·.forwardingScore)).getD 0
        mentions := mentions
        isMentioningMe := mentions.contains clientJid
        isEdited := false
        interactiveReply := iReply
        reaction := reac
        pollUpdate := pollU
        poll := pollC
        timestamp := r.messageTimestamp.map (· * 1000)
        raw := r }))

/-- Model of `MessageNormalizer.normalize` (lines 14-87), parametrised by a
fuel bound on the recursion depth.

The two recursive call sites (lines 24 and 82) pass only two arguments to the
three-parameter `(contact, rawMessage, client)` signature: the synthesised
envelope lands in the `contact` slot, the caller's `client` lands in the
`rawMessage` slot, and the inner `client` is `undefined`.  Consequently every
level-2 call receives the previous client as its envelope and `undefined` as
its client, and every level-3 call receives `undefined` as its envelope and
stops at the `!rawMessage` guard, so the JavaScript recursion depth never
exceeds 2 and fuel 2 realizes the exact semantics (`normalize` below); the
out-of-fuel branch is unreachable.

Promise semantics: `normalize` is `async`; the value of this function is the
settlement of the returned promise.  In the edit branch the source tests the
*unawaited* promise (`if (normalizedEdit)`), which is always truthy, and the
assignments `normalizedEdit.isEdited = true` / `normalizedEdit.id =
originalKey.id` mutate the promise object without affecting its resolution —
except that `originalKey.id` throws synchronously when the protocol key is
absent.  In the reply branch the unawaited promise itself is stored in
`quotedMessage`. -/
def normalizeFuel (fuel : Nat) (contact rawMessage client : JsObj) :
    Except String (Option Normalized) :=
  match rawMessage with
  | .rawMsg r =>
    match r.message with
    | none => .ok none
    | some m =>
      match fuel with
      | 0 => .error "RangeError: Maximum call stack size exceeded"
      | fuel' + 1 =>
        match m.core.protocolMessage.bind (·.editedMessage) with
        | some ec =>
          -- const originalKey = rawMessage.message.protocolMessage.key;
          -- const normalizedEdit = this.normalize({ key, message, pushName }, client);
          let pmKey := m.core.protocolMessage.bind (·.key)
          let synth : RawMessage :=
            { key := pmKey, message := some ec, pushName := r.pushName
              messageTimestamp := none, broadcast := false, verifiedBizName := none }
          let normalizedEdit := normalizeFuel fuel' (.rawMsg synth) client .undef
          match pmKey with
          | none => .error "TypeError: cannot read id of undefined"
          | some _ => normalizedEdit
        | none =>
          normalizeMain (fun q => normalizeFuel fuel' (.rawMsg q) client .undef)
            contact client r m
  | _ => .ok none

/-- Model of `MessageNormalizer.normalize` at its exact recursion bound (see
`normalizeFuel`). -/
def normalize (contact rawMessage client : JsObj) : Except String (Option Normalized) :=
  normalizeFuel 2 contact rawMessage client

end MessageNormalizer

/-! ## MessageStore (src/utils/message-store.js)

The JSON-file-backed store is modelled over a universal in-memory JavaScript
value type `JsVal` (including `Date` objects and function values such as the
media descriptor's `getAttachments` capability), a file-system state mapping
paths to file states, and the `JSON.stringify`-then-`JSON.parse` composite
`jsonify` applied by `_saveMessages`/`_loadMessages`.  Arrays and object field
lists are separate inductives so that all recursion stays structural. -/

mutual

/-- An in-memory JavaScript value. -/
inductive JsVal where
  | undef
  | nullV
  | boolV (b : Bool)
  | numV (n : Int)
  | strV (s : String)
  | dateV (ms : Int)
  | funcV
  | arrV (xs : JsArr)
  | objV (fields : JsObjFields)
  deriving DecidableEq

/-- A JavaScript array of values. -/
inductive JsArr where
  | nil
  | cons (v : JsVal) (rest : JsArr)
  deriving DecidableEq

/-- The ordered own properties of a JavaScript object. -/
inductive JsObjFields where
  | nil
  | cons (k : String) (v : JsVal) (rest : JsObjFields)
  deriving DecidableEq

end

namespace JsArr

/-- Array concatenation. -/
def append : JsArr → JsArr → JsArr
  | .nil, ys => ys
  | .cons x xs, ys => .cons x (append xs ys)

/-- Array length. -/
def length : JsArr → Nat
  | .nil => 0
  | .cons _ xs => xs.length + 1

/-- Drop the first `n` elements. -/
def drop : Nat → JsArr → JsArr
  | 0, xs => xs
  | _ + 1, .nil => .nil
  | n + 1, .cons _ xs => drop n xs

end JsArr

/-- JavaScript truthiness of a value: `undefined`, `null`, `false`, `0` and
`""` are falsy; objects, arrays and functions (even empty ones) are truthy. -/
def jsTruthy : JsVal → Bool
  | .undef => false
  | .nullV => false
  | .boolV b => b
  | .numV n => n ≠ 0
  | .strV s => s ≠ ""
  | _ => true

/-- Property access `v[k]`: defined own properties of objects, `undefined` for
absent properties and for primitives/functions/arrays (no array property named
like a message field is ever read), a `TypeError` on `undefined`/`null`. -/
def jsGetE : JsVal → String → Except String JsVal
  | .undef, k => .error ("TypeError: cannot read " ++ k ++ " of undefined")
  | .nullV, k => .error ("TypeError: cannot read " ++ k ++ " of null")
  | .objV fields, k => .ok (lookupField fields k)
  | _, _ => .ok .undef
where
  /-- First binding of `k` among the ordered own properties. -/
  lookupField : JsObjFields → String → JsVal
    | .nil, _ => .undef
    | .cons k v rest, k' => if k = k' then v else lookupField rest k'

/-- Total variant of property access (`undefined` instead of a throw), used
only in theorem statements. -/
def jsGetD (v : JsVal) (k : String) : JsVal :=
  match jsGetE v k with
  | .error _ => .undef
  | .ok w => w

/-- Strict equality `===` restricted to how the store uses it (comparing `id`
fields): primitives compare by value; objects, arrays and functions compare by
reference, and the two operands here always come from distinct
allocations (one freshly parsed from disk, one supplied by the caller), so the
reference comparison is `false`. -/
def jsStrictEq : JsVal → JsVal → Bool
  | .undef, .undef => true
  | .nullV, .nullV => true
  | .boolV a, .boolV b => a = b
  | .numV a, .numV b => a = b
  | .strV a, .strV b => a = b
  | _, _ => false

/-- Rendering of a `Date` under `JSON.stringify` (`toISOString`); the
development relies only on the result being a string, so the epoch value is
rendered directly. -/
def dateJson (ms : Int) : String := toString ms

mutual

/-- The `JSON.stringify` / `JSON.parse` round trip: `undefined` and functions
disappear (dropped as object fields, `null` as array elements), `Date`s become
strings, JSON-representable values survive unchanged. -/
def jsonify : JsVal → Option JsVal
  | .undef => none
  | .funcV => none
  | .dateV ms => some (.strV (dateJson ms))
  | .nullV => some .nullV
  | .boolV b => some (.boolV b)
  | .numV n => some (.numV n)
  | .strV s => some (.strV s)
  | .arrV xs => some (.arrV (jsonifyArr xs))
  | .objV fields => some (.objV (jsonifyObj fields))

/-- Serialization of array elements (unrepresentable elements become `null`). -/
def jsonifyArr : JsArr → JsArr
  | .nil => .nil
  | .cons v rest =>
    .cons ((jsonify v).getD .nullV) (jsonifyArr rest)

/-- Serialization of object fields (unrepresentable fields are dropped). -/
def jsonifyObj : JsObjFields → JsObjFields
  | .nil => .nil
  | .cons k v rest =>
    match jsonify v with
    | none => jsonifyObj rest
    | some w => .cons k w (jsonifyObj rest)

end

mutual

/-- A value is a JSON image (a possible result of `JSON.parse`): no
`undefined`, no functions, no `Date` objects. -/
def isJsonImage : JsVal → Bool
  | .undef => false
  | .funcV => false
  | .dateV _ => false
  | .nullV => true
  | .boolV _ => true
  | .numV _ => true
  | .strV _ => true
  | .arrV xs => isJsonImageArr xs
  | .objV fields => isJsonImageObj fields

/-- All elements are JSON images. -/
def isJsonImageArr : JsArr → Bool
  | .nil => true
  | .cons v rest => isJsonImage v && isJsonImageArr rest

/-- All field values are JSON images. -/
def isJsonImageObj : JsObjFields → Bool
  | .nil => true
  | .cons _ v rest => isJsonImage v && isJsonImageObj rest

end

/-- State of one chat file in the store directory. -/
inductive FileSt where
  | unreadable
  | invalidJson
  | stored (v : JsVal)

/-- The store's file system: path to file state (`undefined` = missing). -/
def FS : Type := String → Option FileSt

/-- The empty store directory. -/
def emptyFS : FS := fun _ => none

namespace MessageStore

/-- Model of `MessageStore._getFilePath` (line 12). -/
def filePath (chatId : String) : String := chatId ++ ".json"

/-- Model of `MessageStore._loadMessages` (lines 16-25): a missing file gives
`[]`; a read error or a `JSON.parse` failure is caught and gives `[]`; a
parsed falsy value (`null`, `0`, `""`, `false`) is replaced by `[]` by the
`|| []`; any other parsed value is returned as is (it need not be an
array). -/
def loadMessages (fs : FS) (chatId : String) : JsVal :=
  match fs (filePath chatId) with
  | none => .arrV .nil
  | some .unreadable => .arrV .nil
  | some .invalidJson => .arrV .nil
  | some (.stored v) => if jsTruthy v then v else .arrV .nil

/-- Model of `MessageStore._saveMessages` (lines 27-30): the message array is
written through `JSON.stringify`, i.e. the file afterwards holds the JSON
image of the array. -/
def saveMessages (fs : FS) (chatId : String) (msgs : JsArr) : FS :=
  fun p =>
    if p = filePath chatId then some (.stored ((jsonify (.arrV msgs)).getD .nullV))
    else fs p

/-- The callback `m => m.id === message.id` of `Array.prototype.find` in
`saveMessage` (line 36): returns the first matching element;
`message.id` is evaluated inside the callback, so an empty array never
touches it. -/
def findById (message : JsVal) : JsArr → Except String (Option JsVal)
  | .nil => .ok none
  | .cons x rest => do
    let xid ← jsGetE x "id"
    let mid ← jsGetE message "id"
    if jsStrictEq xid mid then .ok (some x) else findById message rest

/-- Model of `MessageStore.saveMessage` (lines 32-40): append unless an
element with the same `id` is already present (`find` truthiness); calling
`find` on a non-array loaded value throws. -/
def saveMessage (fs : FS) (chatId : String) (message : JsVal) : Except String FS := do
  match loadMessages fs chatId with
  | .arrV xs => do
    let found ← findById message xs
    if jsTruthy (found.getD .undef) then .ok fs
    else .ok (saveMessages fs chatId (xs.append (.cons message .nil)))
  | _ => .error "TypeError: messages.find is not a function"

/-- The callback `m => m.id === id` of `find` in `getMessage` (line 45). -/
def findByIdVal (idv : JsVal) : JsArr → Except String (Option JsVal)
  | .nil => .ok none
  | .cons x rest => do
    let xid ← jsGetE x "id"
    if jsStrictEq xid idv then .ok (some x) else findByIdVal idv rest

/-- Model of `MessageStore.getMessage` (lines 43-46): `undefined` when absent
(`Option.none`). -/
def getMessage (fs : FS) (chatId : String) (idv : JsVal) : Except String (Option JsVal) :=
  match loadMessages fs chatId with
  | .arrV xs => findByIdVal idv xs
  | _ => .error "TypeError: messages.find is not a function"

/-- Query options of `getMessages` (`{ from, to, limit }`); `from`/`to` are
arbitrary date-like values, `limit` a number. -/
structure QueryOpts where
  fromOpt : Option JsVal
  toOpt : Option JsVal
  limit : Option Int

/-- The time-window filter of `getMessages` (lines 52-56), parametrised by the
external `new Date(x).getTime()` evaluation `tparse`. -/
def filterTime (tparse : JsVal → Int) (fromOpt toOpt : Option JsVal) :
    JsArr → Except String JsArr
  | .nil => .ok .nil
  | .cons msg rest => do
    let tsv ← jsGetE msg "timestamp"
    let ts := tparse tsv
    let keep :=
      (!jsTruthy (fromOpt.getD .undef) || decide (ts ≥ tparse (fromOpt.getD .undef))) &&
      (!jsTruthy (toOpt.getD .undef) || decide (ts ≤ tparse (toOpt.getD .undef)))
    let tail ← filterTime tparse fromOpt toOpt rest
    if keep then .ok (.cons msg tail) else .ok tail

/-- `messages.slice(-limit)` (line 60). -/
def sliceNeg (l : Int) (xs : JsArr) : JsArr :=
  let start : Int := -l
  if start < 0 then
    let n := start.natAbs
    xs.drop (xs.length - min n xs.length)
  else xs.drop (min start.natAbs xs.length)

/-- Model of `MessageStore.getMessages` (lines 48-64): optional truthy-guarded
time filtering, then a truthy-guarded tail limit (`limit = 0` is falsy and
skips slicing); with no options the loaded value is returned unchanged. -/
def getMessages (tparse : JsVal → Int) (fs : FS) (chatId : String)
    (opts : QueryOpts) : Except String JsVal := do
  let messages := loadMessages fs chatId
  let m1 ←
    if jsTruthy (opts.fromOpt.getD .undef) || jsTruthy (opts.toOpt.getD .undef) then
      match messages with
      | .arrV xs => (filterTime tparse opts.fromOpt opts.toOpt xs).map JsVal.arrV
      | _ => .error "TypeError: messages.filter is not a function"
    else .ok messages
  let m2 ←
    if opts.limit.isSome ∧ opts.limit ≠ some 0 then
      match m1 with
      | .arrV xs => .ok (JsVal.arrV (sliceNeg (opts.limit.getD 0) xs))
      | _ => .error "TypeError: messages.slice is not a function"
    else .ok m1
  .ok m2

end MessageStore

/-! ## Connection lifecycle: the `connection.update` close branch

`Client.connect` (src/index.js lines 204-262, identical logic in
src/utils/generic-utils.js lines 213-271).  The `Boom` wrapping of
`lastDisconnect.error` is external; its extracted `statusCode` and
`reasonType` are the model's inputs.  The `DisconnectReason` numeric codes
come from the external baileys library. -/

namespace DisconnectReason

/-- `DisconnectReason.loggedOut` of the baileys library. -/
def loggedOut : Int := 401

/-- `DisconnectReason.restartRequired` of the baileys library. -/
def restartRequired : Int := 515

/-- `DisconnectReason.unavailableService` of the baileys library. -/
def unavailableService : Int := 503

end DisconnectReason

namespace DisconnectReasons

/-- `DisconnectReasons.MANUAL_DISCONNECT`. -/
def MANUAL_DISCONNECT : String := "manual_disconnect"

/-- `DisconnectReasons.LOGGED_OUT`. -/
def LOGGED_OUT : String := "logged_out"

/-- `DisconnectReasons.PAIRING_FAILED`. -/
def PAIRING_FAILED : String := "pairing_failed"

/-- `DisconnectReasons.CONNECTION_ERROR`. -/
def CONNECTION_ERROR : String := "connection_error"

end DisconnectReasons

namespace ClientEvent

/-- `ClientEvent.ERROR`. -/
def ERROR : String := "error"

/-- `ClientEvent.DISCONNECTED`. -/
def DISCONNECTED : String := "disconnected"

/-- `ClientEvent.STATUS_CHANGE`. -/
def STATUS_CHANGE : String := "status_change"

/-- `ClientEvent.MESSAGE_RECEIVED`. -/
def MESSAGE_RECEIVED : String := "message_received"

/-- `ClientEvent.MESSAGE_SENT`. -/
def MESSAGE_SENT : String := "message_sent"

/-- `ClientEvent.NOTIFICATION`. -/
def NOTIFICATION : String := "notification"

/-- `ClientEvent.BROADCAST_MESSAGE`. -/
def BROADCAST_MESSAGE : String := "broadcast_message"

end ClientEvent

/-- Which object the `details` field of the disconnect reason refers to. -/
inductive DetailsTag where
  | lastDisconnect
  | boomData
  | lastDisconnectError
  deriving Repr, DecidableEq

/-- Payload carried by one emission of the close branch. -/
inductive ClosePayload where
  | reasonP (statusCode : Option Int) (statusType : String) (reason : String)
      (details : DetailsTag)
  | statusP (s : String)
  | errorP (tag : Nat)
  deriving Repr, DecidableEq

/-- Inputs of the close branch: the extracted status code, the
`manualDisconnect` flag, the extracted `reasonType`, the reconnect policy
flag, whether `fs.rm` fails (its error tag), and an opaque tag for the raw
`update` object emitted on generic errors. -/
structure CloseCtx where
  statusCode : Option Int
  manualDisconnect : Bool
  reasonType : String
  restartOnClose : Bool
  rmError : Option Nat
  updateTag : Nat

/-- Observable outcome of the close branch. -/
structure CloseOut where
  emits : List (String × ClosePayload)
  connectCalls : Nat
  purgedSession : Bool
  statusTypeOut : Option String
  deriving Repr, DecidableEq

namespace Client

open Baileys.DisconnectReason Baileys.DisconnectReasons Baileys.ClientEvent

/-- Model of the `case 'close'` branch of the `connection.update` handler
(src/index.js lines 204-262).  In source order: a restart-required status
code silently reconnects before anything is emitted; otherwise the reason is
classified by `manualDisconnect` first, then logged-out (purging the session
directory, with a failed `fs.rm` emitting an error first), then the literal
408, else a generic connection error; `disconnected` and `status_change` are
emitted; a 503 reconnects immediately; otherwise a connection error emits the
raw update as an error and reconnects only under `restartOnClose`. -/
def handleClose (c : CloseCtx) : CloseOut :=
  if c.statusCode = some restartRequired then
    { emits := [], connectCalls := 1, purgedSession := false, statusTypeOut := none }
  else
    let loggedOutBranch := ¬ c.manualDisconnect ∧ c.statusCode = some loggedOut
    let st :=
      if c.manualDisconnect then MANUAL_DISCONNECT
      else if c.statusCode = some loggedOut then LOGGED_OUT
      else if c.statusCode = some 408 then PAIRING_FAILED
      else CONNECTION_ERROR
    let reason :=
      if ¬ c.manualDisconnect ∧ c.statusCode ≠ some loggedOut ∧ c.statusCode = some 408 then
        "qr_read_attempts_ended"
      else c.reasonType
    let details :=
      if c.manualDisconnect then DetailsTag.lastDisconnect
      else if c.statusCode = some loggedOut then DetailsTag.boomData
      else if c.statusCode = some 408 then DetailsTag.boomData
      else DetailsTag.lastDisconnectError
    let rmEmits :=
      match c.rmError with
      | some tag => if loggedOutBranch then [(ERROR, ClosePayload.errorP tag)] else []
      | none => []
    let mainEmits :=
      [(DISCONNECTED, ClosePayload.reasonP c.statusCode st reason details),
       (STATUS_CHANGE, ClosePayload.statusP "disconnected")]
    if c.statusCode = some unavailableService then
      { emits := rmEmits ++ mainEmits, connectCalls := 1
        purgedSession := loggedOutBranch, statusTypeOut := some st }
    else if st = CONNECTION_ERROR then
      { emits := rmEmits ++ mainEmits ++ [(ERROR, ClosePayload.errorP c.updateTag)]
        connectCalls := if c.restartOnClose then 1 else 0
        purgedSession := loggedOutBranch, statusTypeOut := some st }
    else
      { emits := rmEmits ++ mainEmits, connectCalls := 0
        purgedSession := loggedOutBranch, statusTypeOut := some st }

end Client

/-! ## The `messages.upsert` handler

`Client.connect` (src/utils/generic-utils.js lines 347-392; the src/index.js
variant shares the same store-write logic).  The handler normalizes the first
envelope and then guards the persistence with
`if (nmsg && this.store && this.store?.setMessage)` before calling
`this.store?.setMessage(nmsg.chatId, nmsg)`.  The store object's method table
is modelled explicitly: the repository `MessageStore` class defines
`saveMessage`, `getMessage` and `getMessages` — property lookup of
`setMessage` on it yields `undefined`. -/

/-- A store object as seen by the upsert handler: its file state plus the
`setMessage` property (a function, when the pluggable store defines one). -/
structure StoreObj where
  state : FS
  setMessage : Option (Option String → Normalized → FS → FS)

/-- The default `MessageStore` instance as a store object: it has
`saveMessage`/`getMessage`/`getMessages` (modelled in `MessageStore`), and no
`setMessage` property. -/
def messageStoreObj (fs : FS) : StoreObj := ⟨fs, none⟩

/-- The client as seen by the upsert handler: the normalizer-facing client,
the contact cache (`ContactHandler.contacts`), the lid-to-phone-number
mapping oracle (`getPnForLid`), the collaborator-driven
`ContactHandler.normalize` as an oracle, and the pluggable store. -/
structure ClientH where
  base : Client
  contactsCache : String → Option Contact
  pnForLid : String → Option String
  normalizeContact : RawMessage → Contact
  store : Option StoreObj

/-- Model of `ContactHandler.get` (contacts handler): lid-suffixed ids are
resolved through `getPnForLid` first; a failed resolution makes the cache
lookup miss. -/
def contactsGet (cl : ClientH) (jid : String) : Option Contact :=
  if jid.endsWith "@lid" then
    match cl.pnForLid jid with
    | some j => cl.contactsCache j
    | none => none
  else cl.contactsCache jid

/-- One payload of an upsert emission. -/
inductive UpsertPayload where
  | rawP (r : RawMessage)
  | normP (n : Option Normalized)
  | errP (e : String)

/-- One `messages.upsert` event (`{ messages, type }`). -/
structure UpsertEvent where
  messages : List RawMessage
  type : String

/-- Observable outcome of the upsert handler: emissions in order, plus the
resulting store object. -/
structure UpsertOut where
  emits : List (String × UpsertPayload)
  store : Option StoreObj

/-- The normalized record has no `chatId` field (its chat reference is
`chat`), so `nmsg.chatId` evaluates to `undefined`. -/
def chatIdProp (_ : Normalized) : Option String := none

/-- The guarded persistence step
`if (nmsg && this.store && this.store?.setMessage) this.store?.setMessage(nmsg.chatId, nmsg)`
of the upsert handler. -/
def applyStoreWrite (nmsg : Option Normalized) (store : Option StoreObj) : Option StoreObj :=
  match nmsg, store with
  | some n, some st =>
    match st.setMessage with
    | some f => some { st with state := f (chatIdProp n) n st.state }
    | none => some st
  | _, _ => store

namespace Client

open Baileys.ClientEvent

/-- Tail of the `messages.upsert` handler for a conversation envelope: the
guarded store write followed by the per-type emission (generic-utils.js
lines 363-384), applied to the settled result of `normalize` (a rejection is
caught and emitted as `error`). -/
def upsertFinish (cl : ClientH) (k : MsgKey) (evType : String)
    (res : Except String (Option Normalized)) : UpsertOut :=
  match res with
  | .error e => ⟨[(ClientEvent.ERROR, .errP e)], cl.store⟩
  | .ok nmsg =>
    ⟨(if evType = "append" then [(ClientEvent.MESSAGE_SENT, .normP nmsg)]
      else if evType = "notify" then
        if k.fromMe then [(ClientEvent.MESSAGE_SENT, .normP nmsg)]
        else [(ClientEvent.MESSAGE_RECEIVED, .normP nmsg)]
      else [(ClientEvent.NOTIFICATION, .normP nmsg)]),
     applyStoreWrite nmsg cl.store⟩

/-- Model of the `messages.upsert` handler (generic-utils.js lines 347-392).
In source order: `messages[0]` (an empty batch throws inside the `try` and
emits an error); envelopes without content or with a protocol message emit
`notification`; the contact is resolved or built (the cache upsert is not
tracked — it does not affect the store or the emissions); broadcasts emit
`broadcast_message`; otherwise the envelope is normalized, the store write is
attempted only if the store object has a `setMessage` property, and the event
for the upsert type is emitted.  A rejection anywhere is caught and emitted as
`error`. -/
def handleMessagesUpsert (cl : ClientH) (ev : UpsertEvent) : UpsertOut :=
  match ev.messages.head? with
  | none =>
    ⟨[(ERROR, .errP "TypeError: cannot read message of undefined")], cl.store⟩
  | some msg =>
    match msg.message with
    | none => ⟨[(NOTIFICATION, .rawP msg)], cl.store⟩
    | some mc =>
      if mc.core.protocolMessage.isSome then ⟨[(NOTIFICATION, .rawP msg)], cl.store⟩
      else
        match msg.key with
        | none => ⟨[(ERROR, .errP "TypeError: cannot read remoteJid of undefined")], cl.store⟩
        | some k =>
          match k.remoteJid with
          | none => ⟨[(ERROR, .errP "TypeError: cannot read endsWith of undefined")], cl.store⟩
          | some jid =>
            let contact := (contactsGet cl jid).getD (cl.normalizeContact msg)
            if msg.broadcast ∨ jid = "status@broadcast" then
              ⟨[(BROADCAST_MESSAGE, .rawP msg)], cl.store⟩
            else
              upsertFinish cl k ev.type
                (MessageNormalizer.normalize (.contact contact) (.rawMsg msg)
                  (.client cl.base))

end Client

/-! ## Store lemmas

Auxiliary facts about serialization and the id-lookup used by the store
theorems. -/

/-- Number of records in an array whose `id` property is the string `s`. -/
def countIdArr (s : String) : JsArr → Nat
  | .nil => 0
  | .cons x rest => (if jsGetD x "id" = .strV s then 1 else 0) + countIdArr s rest

/-- Number of records with id `s` held by the chat file. -/
def countId (fs : FS) (chatId s : String) : Nat :=
  match fs (MessageStore.filePath chatId) with
  | some (.stored (.arrV xs)) => countIdArr s xs
  | _ => 0

/-- A chat file, if present with parsed content, holds a JSON image (the
invariant maintained by `_saveMessages`, which always writes through
`JSON.stringify`). -/
def storeWellFormed (fs : FS) (chatId : String) : Prop :=
  ∀ v, fs (MessageStore.filePath chatId) = some (.stored v) → isJsonImage v = true

/-- Serialization preserves the first string-valued `id` binding. -/
theorem lookupField_jsonifyObj (fields : JsObjFields) (s : String)
    (h : jsGetE.lookupField fields "id" = .strV s) :
    jsGetE.lookupField (jsonifyObj fields) "id" = .strV s := by
  cases fields with
  | nil => simp [jsGetE.lookupField] at h
  | cons k v rest =>
    by_cases hk : k = "id"
    · subst hk
      rw [jsGetE.lookupField] at h
      simp at h
      subst h
      simp [jsonifyObj, jsonify, jsGetE.lookupField]
    · rw [jsGetE.lookupField] at h
      rw [if_neg hk] at h
      rw [jsonifyObj]
      cases hj : jsonify v with
      | none => exact lookupField_jsonifyObj rest s h
      | some w =>
        rw [jsGetE.lookupField, if_neg hk]
        exact lookupField_jsonifyObj rest s h

/-- A property read returning a string can only come from an object whose
field list binds it. -/
theorem objV_of_jsGetE_strV (m : JsVal) (s : String)
    (h : jsGetE m "id" = .ok (.strV s)) :
    ∃ fields, m = .objV fields ∧ jsGetE.lookupField fields "id" = .strV s := by
  cases m <;> simp_all [jsGetE]

mutual

/-- `jsonify` is the identity on JSON images. -/
theorem jsonify_of_image (v : JsVal) (h : isJsonImage v = true) : jsonify v = some v := by
  cases v with
  | undef => simp [isJsonImage] at h
  | funcV => simp [isJsonImage] at h
  | dateV ms => simp [isJsonImage] at h
  | nullV => rfl
  | boolV b => rfl
  | numV n => rfl
  | strV s => rfl
  | arrV xs =>
    rw [jsonify, jsonifyArr_of_image xs (by simpa [isJsonImage] using h)]
  | objV fields =>
    rw [jsonify, jsonifyObj_of_image fields (by simpa [isJsonImage] using h)]

/-- Array serialization is the identity on JSON images. -/
theorem jsonifyArr_of_image (xs : JsArr) (h : isJsonImageArr xs = true) :
    jsonifyArr xs = xs := by
  cases xs with
  | nil => rfl
  | cons v rest =>
    rw [isJsonImageArr, Bool.and_eq_true] at h
    simp [jsonifyArr, jsonify_of_image v h.1, jsonifyArr_of_image rest h.2]

/-- Field serialization is the identity on JSON images. -/
theorem jsonifyObj_of_image (fields : JsObjFields) (h : isJsonImageObj fields = true) :
    jsonifyObj fields = fields := by
  cases fields with
  | nil => rfl
  | cons k v rest =>
    rw [isJsonImageObj, Bool.and_eq_true] at h
    simp [jsonifyObj, jsonify_of_image v h.1, jsonifyObj_of_image rest h.2]

end

/-- String-targeted strict equality holds only against the equal string. -/
theorem jsStrictEq_strV (x : JsVal) (s : String) :
    jsStrictEq x (.strV s) = true ↔ x = .strV s := by
  cases x <;> simp [jsStrictEq]

/-- A `findById` walk that found nothing saw no record with the given id. -/
theorem countIdArr_of_findById_none (m : JsVal) (s : String) (xs : JsArr)
    (hid : jsGetE m "id" = .ok (.strV s))
    (h : MessageStore.findById m xs = .ok none) :
    countIdArr s xs = 0 := by
  cases xs with
  | nil => rfl
  | cons x rest =>
    rw [MessageStore.findById] at h
    simp only [bind, Except.bind, hid] at h
    revert h
    cases hx : jsGetE x "id" with
    | error e => intro h; simp at h
    | ok xid =>
      intro h
      simp only at h
      by_cases heq : jsStrictEq xid (.strV s) = true
      · rw [if_pos heq] at h; simp at h
      · rw [if_neg heq] at h
        rw [countIdArr, countIdArr_of_findById_none m s rest hid h]
        have hx' : jsGetD x "id" = xid := by simp [jsGetD, hx]
        have : ¬ jsGetD x "id" = .strV s := by
          rw [hx']; intro hc; exact heq ((jsStrictEq_strV xid s).2 hc)
        simp [this]

/-- A successful `findById` walk saw at least one record with the given id. -/
theorem countIdArr_of_findById_some (m x : JsVal) (s : String) (xs : JsArr)
    (hid : jsGetE m "id" = .ok (.strV s))
    (h : MessageStore.findById m xs = .ok (some x)) :
    1 ≤ countIdArr s xs := by
  cases xs with
  | nil => rw [MessageStore.findById] at h; simp at h
  | cons y rest =>
    rw [MessageStore.findById] at h
    simp only [bind, Except.bind, hid] at h
    revert h
    cases hy : jsGetE y "id" with
    | error e => intro h; simp at h
    | ok yid =>
      intro h
      simp only at h
      by_cases heq : jsStrictEq yid (.strV s) = true
      · have hy' : jsGetD y "id" = yid := by simp [jsGetD, hy]
        have : jsGetD y "id" = .strV s := by rw [hy']; exact (jsStrictEq_strV yid s).1 heq
        rw [countIdArr, if_pos this]
        omega
      · rw [if_neg heq] at h
        rw [countIdArr]
        have := countIdArr_of_findById_some m x s rest hid h
        omega

/-- Appending behind a fruitless walk: the walk continues into the suffix. -/
theorem findById_append_of_none (m : JsVal) (xs ys : JsArr)
    (h : MessageStore.findById m xs = .ok none) :
    MessageStore.findById m (xs.append ys) = MessageStore.findById m ys := by
  cases xs with
  | nil => rfl
  | cons x rest =>
    rw [MessageStore.findById] at h
    rw [JsArr.append, MessageStore.findById]
    simp only [bind, Except.bind] at h ⊢
    revert h
    cases hx : jsGetE x "id" with
    | error e => intro h; simp at h
    | ok xid =>
      intro h
      simp only at h ⊢
      revert h
      cases hm : jsGetE m "id" with
      | error e => intro h; simp at h
      | ok mid =>
        intro h
        simp only at h ⊢
        by_cases heq : jsStrictEq xid mid = true
        · rw [if_pos heq] at h; simp at h
        · rw [if_neg heq] at h
          rw [if_neg heq]
          exact findById_append_of_none m rest ys h

/-- Serialization distributes over array append. -/
theorem jsonifyArr_append (xs ys : JsArr) :
    jsonifyArr (xs.append ys) = (jsonifyArr xs).append (jsonifyArr ys) := by
  cases xs with
  | nil => rfl
  | cons v rest =>
    rw [JsArr.append, jsonifyArr, jsonifyArr, jsonifyArr_append rest ys, JsArr.append]

/-- Counting distributes over array append. -/
theorem countIdArr_append (s : String) (xs ys : JsArr) :
    countIdArr s (xs.append ys) = countIdArr s xs + countIdArr s ys := by
  cases xs with
  | nil => simp [JsArr.append, countIdArr]
  | cons v rest =>
    rw [JsArr.append, countIdArr, countIdArr, countIdArr_append s rest ys]
    omega

/-- The element found by `findById` carries the searched id. -/
theorem findById_some_id (m el : JsVal) (s : String) (xs : JsArr)
    (hid : jsGetE m "id" = .ok (.strV s))
    (h : MessageStore.findById m xs = .ok (some el)) :
    jsGetE el "id" = .ok (.strV s) := by
  cases xs with
  | nil => rw [MessageStore.findById] at h; simp at h
  | cons y rest =>
    rw [MessageStore.findById] at h
    simp only [bind, Except.bind, hid] at h
    revert h
    cases hy : jsGetE y "id" with
    | error e => intro h; simp at h
    | ok yid =>
      intro h
      simp only at h
      by_cases heq : jsStrictEq yid (.strV s) = true
      · rw [if_pos heq] at h
        simp at h
        subst h
        rw [hy, (jsStrictEq_strV yid s).1 heq]
      · rw [if_neg heq] at h
        exact findById_some_id m el s rest hid h

/-- The serialized form of a message keeps its string id and is a truthy
object. -/
theorem jsonified_keeps_id (m : JsVal) (s : String)
    (hid : jsGetE m "id" = .ok (.strV s)) :
    jsGetE ((jsonify m).getD .nullV) "id" = .ok (.strV s) ∧
    jsTruthy ((jsonify m).getD .nullV) = true := by
  obtain ⟨fields, hm, hl⟩ := objV_of_jsGetE_strV m s hid
  subst hm
  refine ⟨?_, rfl⟩
  simp [jsonify, jsGetE, lookupField_jsonifyObj fields s hl]

/-- Finding the just-serialized message in the singleton array. -/
theorem findById_singleton (m : JsVal) (s : String)
    (hid : jsGetE m "id" = .ok (.strV s)) :
    MessageStore.findById m (.cons ((jsonify m).getD .nullV) .nil)
      = .ok (some ((jsonify m).getD .nullV)) := by
  obtain ⟨hjid, _⟩ := jsonified_keeps_id m s hid
  rw [MessageStore.findById]
  simp only [bind, Except.bind, hjid, hid]
  simp [jsStrictEq]

/-- A fruitless `findById` walk for a message with string id `s` is also a
fruitless `findByIdVal` walk for `s` over the same elements (`getMessage`'s
`find` callback differs from `saveMessage`'s only in reading the target id
once outside instead of per element). -/
theorem findByIdVal_of_findById_none (m : JsVal) (s : String) (xs : JsArr)
    (hid : jsGetE m "id" = .ok (.strV s))
    (h : MessageStore.findById m xs = .ok none) :
    MessageStore.findByIdVal (.strV s) xs = .ok none := by
  cases xs with
  | nil => rfl
  | cons x rest =>
    rw [MessageStore.findById] at h
    rw [MessageStore.findByIdVal]
    simp only [bind, Except.bind, hid] at h ⊢
    revert h
    cases hx : jsGetE x "id" with
    | error e => intro h; simp at h
    | ok xid =>
      intro h
      simp only at h ⊢
      by_cases heq : jsStrictEq xid (.strV s) = true
      · rw [if_pos heq] at h; simp at h
      · rw [if_neg heq] at h
        rw [if_neg heq]
        exact findByIdVal_of_findById_none m s rest hid h

/-- Appending behind a fruitless `findByIdVal` walk: the walk continues into
the suffix. -/
theorem findByIdVal_append_of_none (idv : JsVal) (xs ys : JsArr)
    (h : MessageStore.findByIdVal idv xs = .ok none) :
    MessageStore.findByIdVal idv (xs.append ys)
      = MessageStore.findByIdVal idv ys := by
  cases xs with
  | nil => rfl
  | cons x rest =>
    rw [MessageStore.findByIdVal] at h
    rw [JsArr.append, MessageStore.findByIdVal]
    simp only [bind, Except.bind] at h ⊢
    revert h
    cases hx : jsGetE x "id" with
    | error e => intro h; simp at h
    | ok xid =>
      intro h
      simp only at h ⊢
      by_cases heq : jsStrictEq xid idv = true
      · rw [if_pos heq] at h; simp at h
      · rw [if_neg heq] at h
        rw [if_neg heq]
        exact findByIdVal_append_of_none idv rest ys h

/-- `getMessage`'s walk finds the just-serialized message in a singleton. -/
theorem findByIdVal_singleton (m : JsVal) (s : String)
    (hid : jsGetE m "id" = .ok (.strV s)) :
    MessageStore.findByIdVal (.strV s) (.cons ((jsonify m).getD .nullV) .nil)
      = .ok (some ((jsonify m).getD .nullV)) := by
  obtain ⟨hjid, _⟩ := jsonified_keeps_id m s hid
  rw [MessageStore.findByIdVal]
  simp only [bind, Except.bind, hjid]
  simp [jsStrictEq]

mutual

/-- The serialization of any value (with `null` for the unrepresentable) is a
JSON image. -/
theorem jsonify_getD_image (v : JsVal) :
    isJsonImage ((jsonify v).getD .nullV) = true := by
  cases v with
  | undef => rfl
  | funcV => rfl
  | dateV ms => rfl
  | nullV => rfl
  | boolV b => rfl
  | numV n => rfl
  | strV s => rfl
  | arrV xs =>
    simpa [jsonify, isJsonImage] using jsonifyArr_image xs
  | objV fields =>
    simpa [jsonify, isJsonImage] using jsonifyObj_image fields

/-- Serialized arrays are JSON images. -/
theorem jsonifyArr_image (xs : JsArr) :
    isJsonImageArr (jsonifyArr xs) = true := by
  cases xs with
  | nil => rfl
  | cons v rest =>
    rw [jsonifyArr, isJsonImageArr, jsonify_getD_image v, jsonifyArr_image rest]
    rfl

/-- Serialized field lists are JSON images. -/
theorem jsonifyObj_image (fields : JsObjFields) :
    isJsonImageObj (jsonifyObj fields) = true := by
  cases fields with
  | nil => rfl
  | cons k v rest =>
    rw [jsonifyObj]
    cases hj : jsonify v with
    | none => exact jsonifyObj_image rest
    | some w =>
      rw [isJsonImageObj, jsonifyObj_image rest]
      have hw : isJsonImage w = true := by
        have := jsonify_getD_image v
        rwa [hj] at this
      rw [hw]
      rfl

end

/-- Reading back the file just written by `_saveMessages`. -/
theorem saveMessages_read (fs : FS) (chatId : String) (ys : JsArr) :
    MessageStore.saveMessages fs chatId ys (MessageStore.filePath chatId)
      = some (.stored (.arrV (jsonifyArr ys))) := by
  rw [MessageStore.saveMessages]
  simp [jsonify]

/-- Loading the chat right after `_saveMessages` yields the serialized
array. -/
theorem loadMessages_saveMessages (fs : FS) (chatId : String) (ys : JsArr) :
    MessageStore.loadMessages (MessageStore.saveMessages fs chatId ys) chatId
      = .arrV (jsonifyArr ys) := by
  rw [MessageStore.loadMessages, saveMessages_read]
  simp [jsTruthy]

/-- Record count of the chat right after `_saveMessages`. -/
theorem countId_saveMessages (fs : FS) (chatId s : String) (ys : JsArr) :
    countId (MessageStore.saveMessages fs chatId ys) chatId s
      = countIdArr s (jsonifyArr ys) := by
  rw [countId, saveMessages_read]

/-- Record count when the chat file stores an array. -/
theorem countId_stored_arr (fs : FS) (chatId s : String) (xs : JsArr)
    (hfile : fs (MessageStore.filePath chatId) = some (.stored (.arrV xs))) :
    countId fs chatId s = countIdArr s xs := by
  rw [countId, hfile]

/-- `saveMessage` on a chat whose loaded value is an array, linearized. -/
theorem saveMessage_on_array (fs : FS) (chatId : String) (m : JsVal) (xs : JsArr)
    (hload : MessageStore.loadMessages fs chatId = .arrV xs) :
    MessageStore.saveMessage fs chatId m =
      (MessageStore.findById m xs).bind (fun found =>
        if jsTruthy (found.getD .undef) then .ok fs
        else .ok (MessageStore.saveMessages fs chatId (xs.append (.cons m .nil)))) := by
  unfold MessageStore.saveMessage
  rw [hload]
  rfl

/-- Second save after an append: the freshly written file is loaded, the walk
passes the (unchanged) old elements and finds the serialized copy. -/
theorem saveMessage_after_append (fs : FS) (chatId s : String) (m : JsVal) (xs : JsArr)
    (hid : jsGetE m "id" = .ok (.strV s))
    (himg : jsonifyArr xs = xs)
    (hnone : MessageStore.findById m xs = .ok none) :
    MessageStore.saveMessage
        (MessageStore.saveMessages fs chatId (xs.append (.cons m .nil))) chatId m
      = .ok (MessageStore.saveMessages fs chatId (xs.append (.cons m .nil))) := by
  obtain ⟨hjid, htr⟩ := jsonified_keeps_id m s hid
  have hload := loadMessages_saveMessages fs chatId (xs.append (.cons m .nil))
  rw [jsonifyArr_append, himg] at hload
  have hsingle : jsonifyArr (.cons m .nil) = .cons ((jsonify m).getD .nullV) .nil := rfl
  rw [hsingle] at hload
  rw [saveMessage_on_array _ chatId m _ hload]
  rw [findById_append_of_none m xs _ hnone, findById_singleton m s hid]
  simp [bind, Except.bind, htr]

/-! ## Normalizer lemmas

Reduction facts about `normalizeFuel` and the main path, used to characterize
exactly which envelopes resolve to null. -/

/-- Peeling one `Except` bind off a chain that returned a value. -/
theorem bindOkElim {α β : Type} {e : Except String α} {f : α → Except String β}
    {b : β} (h : e.bind f = .ok b) : ∃ a, e = .ok a ∧ f a = .ok b := by
  cases e with
  | error err => simp [Except.bind] at h
  | ok a => exact ⟨a, rfl, by simpa [Except.bind] using h⟩

/-- The main (non-edit) path never resolves to null: its last statement is
`return normalized` with a freshly built object, and every earlier failure is
a thrown error, not a null return. -/
theorem normalizeMain_not_null (recur : RawMessage → Except String (Option Normalized))
    (contact client : JsObj) (r : RawMessage) (m : MessageContent) :
    MessageNormalizer.normalizeMain recur contact client r m ≠ .ok none := by
  intro h
  unfold MessageNormalizer.normalizeMain at h
  obtain ⟨type0, h0, h⟩ := bindOkElim h
  obtain ⟨c, h1, h⟩ := bindOkElim h
  revert h
  cases hk : r.key with
  | none => intro h; simp at h
  | some k =>
    intro h
    obtain ⟨ctId, h2, h⟩ := bindOkElim h
    revert h
    cases hf : k.fromMe <;>
      (intro h
       obtain ⟨fromPushName, h3, h⟩ := bindOkElim h
       obtain ⟨iReply, h4, h⟩ := bindOkElim h
       obtain ⟨reac, h5, h⟩ := bindOkElim h
       obtain ⟨pollU, h6, h⟩ := bindOkElim h
       obtain ⟨pollC, h7, h⟩ := bindOkElim h
       obtain ⟨enr, h8, h⟩ := bindOkElim h
       simp at h)

/-- One step of `normalizeFuel` on an envelope that carries a message but no
edit wrapper: the main path runs, with the quoted-message recursion bound by
the remaining fuel. -/
theorem normalizeFuel_succ_nonedit (n : Nat) (ct cl : JsObj) (key : Option MsgKey)
    (m : MessageContent) (pn : Option String) (ts : Option Int) (bc : Bool)
    (vb : Option String)
    (hpm : m.core.protocolMessage.bind (fun p => p.editedMessage) = none) :
    MessageNormalizer.normalizeFuel (n + 1) ct
        (.rawMsg ⟨key, some m, pn, ts, bc, vb⟩) cl
      = MessageNormalizer.normalizeMain
          (fun q => MessageNormalizer.normalizeFuel n (.rawMsg q) cl .undef)
          ct cl ⟨key, some m, pn, ts, bc, vb⟩ m := by
  conv_lhs => unfold MessageNormalizer.normalizeFuel
  simp only [Nat.add_one, hpm]

/-- One step of `normalizeFuel` on an edit wrapper whose protocol key is
present: the value is the arguments-shifted recursive call on the synthesised
envelope — the caller's client lands in the `rawMessage` slot. -/
theorem normalizeFuel_succ_edit (n : Nat) (ct cl : JsObj) (key : Option MsgKey)
    (m ec : MessageContent) (pn : Option String) (ts : Option Int) (bc : Bool)
    (vb : Option String) (k0 : MsgKey)
    (hpm : m.core.protocolMessage.bind (fun p => p.editedMessage) = some ec)
    (hkey : m.core.protocolMessage.bind (fun p => p.key) = some k0) :
    MessageNormalizer.normalizeFuel (n + 1) ct
        (.rawMsg ⟨key, some m, pn, ts, bc, vb⟩) cl
      = MessageNormalizer.normalizeFuel n
          (.rawMsg ⟨some k0, some ec, pn, none, false, none⟩) cl .undef := by
  conv_lhs => unfold MessageNormalizer.normalizeFuel
  simp only [Nat.add_one, hpm, hkey]

/-- One step of `normalizeFuel` on an edit wrapper whose protocol key is
absent: reading `originalKey.id` throws. -/
theorem normalizeFuel_succ_edit_nokey (n : Nat) (ct cl : JsObj) (key : Option MsgKey)
    (m ec : MessageContent) (pn : Option String) (ts : Option Int) (bc : Bool)
    (vb : Option String)
    (hpm : m.core.protocolMessage.bind (fun p => p.editedMessage) = some ec)
    (hkey : m.core.protocolMessage.bind (fun p => p.key) = none) :
    MessageNormalizer.normalizeFuel (n + 1) ct
        (.rawMsg ⟨key, some m, pn, ts, bc, vb⟩) cl
      = .error "TypeError: cannot read id of undefined" := by
  conv_lhs => unfold MessageNormalizer.normalizeFuel
  simp only [Nat.add_one, hpm, hkey]

namespace Claims

/-- Claim C6: MessageStore append is idempotent by message id: re-appending a
message whose id is already stored is a no-op (ignore-if-present), and after a
successful save the store holds exactly one record for that (chatId, id) when
it held at most one before (`max (countId fs) 1`).  Hypotheses: the message
has a string `id` (as every CanonicalMessage does) and the chat file, if it
holds parsed content, holds a JSON image (the invariant `_saveMessages`
maintains). -/
theorem saveMessage_idempotent_by_id (fs fs1 : FS) (chatId s : String) (m : JsVal)
    (hid : jsGetE m "id" = .ok (.strV s))
    (hwf : storeWellFormed fs chatId)
    (h1 : MessageStore.saveMessage fs chatId m = .ok fs1) :
    MessageStore.saveMessage fs1 chatId m = .ok fs1 ∧
    countId fs1 chatId s = max (countId fs chatId s) 1 := by
  obtain ⟨fields, hm, hl⟩ := objV_of_jsGetE_strV m s hid
  have hjm : (jsonify m).getD .nullV = .objV (jsonifyObj fields) := by
    rw [hm]; rfl
  have hjmid : jsGetD ((jsonify m).getD .nullV) "id" = .strV s := by
    rw [hjm]
    simp [jsGetD, jsGetE, lookupField_jsonifyObj fields s hl]
  -- appending from a loaded array with no matching record
  have appendCase : ∀ (xs : JsArr), MessageStore.loadMessages fs chatId = .arrV xs →
      jsonifyArr xs = xs → MessageStore.findById m xs = .ok none →
      fs1 = MessageStore.saveMessages fs chatId (xs.append (.cons m .nil)) →
      MessageStore.saveMessage fs1 chatId m = .ok fs1 ∧
      countId fs1 chatId s = countIdArr s xs + 1 := by
    intro xs hload himg hnone hfs1
    constructor
    · rw [hfs1]; exact saveMessage_after_append fs chatId s m xs hid himg hnone
    · rw [hfs1, countId_saveMessages, jsonifyArr_append, himg]
      have hsingle : jsonifyArr (.cons m .nil) = .cons ((jsonify m).getD .nullV) .nil := rfl
      rw [hsingle, countIdArr_append]
      have hone : countIdArr s (.cons ((jsonify m).getD .nullV) .nil) = 1 := by
        rw [countIdArr, if_pos hjmid]
        rfl
      rw [hone]
  -- the fresh-array situation shared by every non-record file state
  have freshCase : MessageStore.loadMessages fs chatId = .arrV .nil →
      countId fs chatId s = 0 →
      MessageStore.saveMessage fs1 chatId m = .ok fs1 ∧
      countId fs1 chatId s = max (countId fs chatId s) 1 := by
    intro hload hcount0
    rw [saveMessage_on_array fs chatId m .nil hload] at h1
    simp only [MessageStore.findById, bind, Except.bind, Except.bind] at h1
    rw [if_neg (by simp [jsTruthy])] at h1
    simp only [Except.ok.injEq] at h1
    obtain ⟨hsave, hcount⟩ := appendCase .nil hload rfl rfl h1.symm
    refine ⟨hsave, ?_⟩
    rw [hcount, hcount0]
    rfl
  -- split on the state of the chat file
  rcases hfile : fs (MessageStore.filePath chatId) with _ | fst
  · exact freshCase (by rw [MessageStore.loadMessages, hfile]) (by rw [countId, hfile])
  · rcases fst with _ | _ | v
    · exact freshCase (by rw [MessageStore.loadMessages, hfile]) (by rw [countId, hfile])
    · exact freshCase (by rw [MessageStore.loadMessages, hfile]) (by rw [countId, hfile])
    · by_cases htr : jsTruthy v = true
      · have hload : MessageStore.loadMessages fs chatId = v := by
          rw [MessageStore.loadMessages, hfile]
          simp [htr]
        have himgv : isJsonImage v = true := hwf v hfile
        rcases v with _ | _ | b | n | sv | d | _ | xs | flds
        -- undef
        · simp [jsTruthy] at htr
        -- null
        · simp [jsTruthy] at htr
        -- boolean
        · exfalso; unfold MessageStore.saveMessage at h1; rw [hload] at h1; simp at h1
        -- number
        · exfalso; unfold MessageStore.saveMessage at h1; rw [hload] at h1; simp at h1
        -- string
        · exfalso; unfold MessageStore.saveMessage at h1; rw [hload] at h1; simp at h1
        -- Date (not a JSON image)
        · simp [isJsonImage] at himgv
        -- function (not a JSON image)
        · simp [isJsonImage] at himgv
        -- array
        · have himg : jsonifyArr xs = xs :=
            jsonifyArr_of_image xs (by simpa [isJsonImage] using himgv)
          rw [saveMessage_on_array fs chatId m xs hload] at h1
          revert h1
          cases hf : MessageStore.findById m xs with
          | error e => intro h1; simp [bind, Except.bind] at h1
          | ok found =>
            intro h1
            simp only [bind, Except.bind] at h1
            rcases found with _ | el
            · -- nothing found: append
              simp only [Option.getD] at h1
              rw [if_neg (by simp [jsTruthy])] at h1
              simp only [Except.ok.injEq] at h1
              obtain ⟨hsave, hcount⟩ := appendCase xs hload himg hf h1.symm
              refine ⟨hsave, ?_⟩
              rw [hcount, countId_stored_arr fs chatId s xs hfile]
              rw [countIdArr_of_findById_none m s xs hid hf]
              rfl
            · -- a record with this id exists: the write is ignored
              have helid := findById_some_id m el s xs hid hf
              obtain ⟨efields, helm, _⟩ := objV_of_jsGetE_strV el s helid
              have heltr : jsTruthy el = true := by rw [helm]; rfl
              simp only [Option.getD] at h1
              rw [if_pos heltr] at h1
              simp only [Except.ok.injEq] at h1
              subst h1
              constructor
              · rw [saveMessage_on_array fs chatId m xs hload, hf]
                simp only [bind, Except.bind, Option.getD]
                rw [if_pos heltr]
              · have hge : 1 ≤ countIdArr s xs :=
                  countIdArr_of_findById_some m el s xs hid hf
                rw [countId_stored_arr fs chatId s xs hfile]
                omega
        -- object
        · exfalso; unfold MessageStore.saveMessage at h1; rw [hload] at h1; simp at h1
      · refine freshCase ?_ ?_
        · rw [MessageStore.loadMessages, hfile]
          simp [htr]
        · rw [countId, hfile]
          rcases v with _ | _ | _ | _ | _ | _ | _ | xs | flds <;>
            simp_all [jsTruthy, countIdArr]

/-- Concrete message fixture for the C6 witness. -/
def idemMsg : JsVal := .objV (.cons "id" (.strV "A") .nil)

/-- Store state after the first append of `idemMsg`. -/
def idemFs : FS := MessageStore.saveMessages emptyFS "chat1" (.cons idemMsg .nil)

/-- Witness for C6 at a concrete input: re-saving an already-stored message id
is a no-op. -/
theorem saveMessage_idempotent_witness :
    MessageStore.saveMessage idemFs "chat1" idemMsg = .ok idemFs :=
  (saveMessage_idempotent_by_id emptyFS idemFs "chat1" "A" idemMsg rfl
    (fun _ h => Option.noConfusion h) rfl).1

/-- Claim C7 (amended): writing a CanonicalMessage into a chat whose file
holds no record with its id (the file may be absent, degrade to `[]`, or
already hold other records — all JSON images, as `_saveMessages` always writes
through `JSON.stringify`) appends it, and reading it back returns the JSON
image of the message: JSON-representable fields survive unchanged, the `Date`
timestamp comes back as its string rendering, and function-valued members
(the attachment-fetch capability) and `undefined` members are dropped; the
read-back value is the original exactly when the message was a JSON image
already. -/
theorem saveMessage_roundtrip_json_image (fs : FS) (chatId s : String) (m : JsVal)
    (xs : JsArr)
    (hid : jsGetE m "id" = .ok (.strV s))
    (hload : MessageStore.loadMessages fs chatId = .arrV xs)
    (himg : isJsonImageArr xs = true)
    (hnone : MessageStore.findById m xs = .ok none) :
    MessageStore.saveMessage fs chatId m
      = .ok (MessageStore.saveMessages fs chatId (xs.append (.cons m .nil))) ∧
    MessageStore.getMessage
        (MessageStore.saveMessages fs chatId (xs.append (.cons m .nil)))
        chatId (.strV s)
      = .ok (some ((jsonify m).getD .nullV)) ∧
    ((jsonify m).getD .nullV = m ↔ isJsonImage m = true) := by
  refine ⟨?_, ?_, ?_⟩
  · rw [saveMessage_on_array fs chatId m xs hload, hnone]
    rfl
  · have hload2 := loadMessages_saveMessages fs chatId (xs.append (.cons m .nil))
    rw [jsonifyArr_append, jsonifyArr_of_image xs himg] at hload2
    have hsingle : jsonifyArr (.cons m .nil) = .cons ((jsonify m).getD .nullV) .nil := rfl
    rw [hsingle] at hload2
    rw [MessageStore.getMessage, hload2]
    show MessageStore.findByIdVal (.strV s)
        (xs.append (.cons ((jsonify m).getD .nullV) .nil))
      = .ok (some ((jsonify m).getD .nullV))
    rw [findByIdVal_append_of_none (.strV s) xs _
      (findByIdVal_of_findById_none m s xs hid hnone)]
    exact findByIdVal_singleton m s hid
  · constructor
    · intro h
      have hi := jsonify_getD_image m
      rwa [h] at hi
    · intro himg2
      rw [jsonify_of_image m himg2]
      rfl

/-- A CanonicalMessage-shaped value carrying a `Date` timestamp and a
function-valued attachment capability, as `normalize` produces. -/
def roundtripMsg : JsVal :=
  .objV (.cons "id" (.strV "A")
    (.cons "timestamp" (.dateV 1700)
      (.cons "media" (.objV (.cons "getAttachments" .funcV .nil)) .nil)))

/-- Counterexample to C7 as stated: after `saveMessage`, `getMessage` does not
return a value field-for-field identical to the one passed in — the `Date`
timestamp comes back as a string and the attachment-fetch function is gone. -/
theorem saveMessage_roundtrip_not_identity :
    (MessageStore.saveMessage emptyFS "123@s.whatsapp.net" roundtripMsg).bind
      (fun fs1 => MessageStore.getMessage fs1 "123@s.whatsapp.net" (.strV "A"))
      ≠ .ok (some roundtripMsg) := by
  decide

/-- Fixture for the C7 witness: a JSON-stable message. -/
def stableMsg : JsVal := .objV (.cons "id" (.strV "B") (.cons "body" (.strV "hi") .nil))

/-- A record already present in the C7 witness chat, under a different id. -/
def c7Other : JsVal := .objV (.cons "id" (.strV "A") .nil)

/-- The C7 witness store: the chat file already holds `c7Other`. -/
def c7Fs : FS := MessageStore.saveMessages emptyFS "c7" (.cons c7Other .nil)

/-- Witness for C7 at a concrete input: saving a JSON-stable message into a
chat that already holds another record appends it, and it reads back
unchanged. -/
theorem saveMessage_roundtrip_witness :
    MessageStore.saveMessage c7Fs "c7" stableMsg
      = .ok (MessageStore.saveMessages c7Fs "c7"
          ((JsArr.cons c7Other .nil).append (.cons stableMsg .nil))) ∧
    MessageStore.getMessage
        (MessageStore.saveMessages c7Fs "c7"
          ((JsArr.cons c7Other .nil).append (.cons stableMsg .nil)))
        "c7" (.strV "B") = .ok (some stableMsg) := by
  have h := saveMessage_roundtrip_json_image c7Fs "c7" "B" stableMsg
    (.cons c7Other .nil) rfl (by decide) (by decide) (by decide)
  refine ⟨h.1, ?_⟩
  have himg : (jsonify stableMsg).getD .nullV = stableMsg := h.2.2.mpr (by decide)
  rw [← himg]
  exact h.2.1

/-- Claim C10: on a chat whose backing file is missing, unreadable, or holds
invalid JSON, `_loadMessages` returns the empty list instead of throwing, so
`getMessage` returns `undefined` and `getMessages` (for every option set)
returns an empty sequence. -/
theorem corrupt_store_reads_degrade (fs : FS) (chatId : String)
    (tparse : JsVal → Int) (opts : MessageStore.QueryOpts)
    (h : fs (MessageStore.filePath chatId) = none ∨
         fs (MessageStore.filePath chatId) = some .unreadable ∨
         fs (MessageStore.filePath chatId) = some .invalidJson) :
    MessageStore.loadMessages fs chatId = .arrV .nil ∧
    (∀ idv, MessageStore.getMessage fs chatId idv = .ok none) ∧
    MessageStore.getMessages tparse fs chatId opts = .ok (.arrV .nil) := by
  have hl : MessageStore.loadMessages fs chatId = .arrV .nil := by
    rcases h with h | h | h <;> rw [MessageStore.loadMessages, h]
  refine ⟨hl, ?_, ?_⟩
  · intro idv
    rw [MessageStore.getMessage, hl]
    rfl
  · unfold MessageStore.getMessages
    rw [hl]
    split_ifs <;>
      simp [MessageStore.filterTime, MessageStore.sliceNeg, JsArr.length,
        JsArr.drop, bind, Except.bind, Except.map]

/-- A store whose only chat file holds invalid JSON. -/
def corruptFs : FS := fun p => if p = "bad.json" then some .invalidJson else none

/-- Witness for C10 at a concrete input. -/
theorem corrupt_store_reads_witness :
    MessageStore.getMessage corruptFs "bad" (.strV "X") = .ok none :=
  (corrupt_store_reads_degrade corruptFs "bad" (fun _ => 0) ⟨none, none, none⟩
    (Or.inr (Or.inr rfl))).2.1 (.strV "X")

/-- Claim C4: disconnect classification is a pure function of
(statusCode, manualDisconnect, reasonType): contexts agreeing on that triple
classify identically regardless of reconnect policy, rm failures or payload
details; a non-manual close with the logged-out status code classifies as
`logged_out`, purges the persisted session directory and emits the
`disconnected` event with that classification; a close with the
restart-required status code silently calls `connect()` again and emits no
event at all. -/
theorem close_classification_pure_and_branches :
    (∀ c1 c2 : CloseCtx, c1.statusCode = c2.statusCode →
        c1.manualDisconnect = c2.manualDisconnect →
        c1.reasonType = c2.reasonType →
        (Client.handleClose c1).statusTypeOut = (Client.handleClose c2).statusTypeOut) ∧
    (∀ c : CloseCtx, c.statusCode = some DisconnectReason.loggedOut →
        c.manualDisconnect = false →
        (Client.handleClose c).statusTypeOut = some DisconnectReasons.LOGGED_OUT ∧
        (Client.handleClose c).purgedSession = true ∧
        (ClientEvent.DISCONNECTED,
            ClosePayload.reasonP c.statusCode DisconnectReasons.LOGGED_OUT c.reasonType
              DetailsTag.boomData)
          ∈ (Client.handleClose c).emits) ∧
    (∀ c : CloseCtx, c.statusCode = some DisconnectReason.restartRequired →
        (Client.handleClose c).emits = [] ∧ (Client.handleClose c).connectCalls = 1) := by
  refine ⟨?_, ?_, ?_⟩
  · intro c1 c2 h1 h2 h3
    unfold Client.handleClose
    rw [h1, h2, h3]
    simp only [apply_ite CloseOut.statusTypeOut]
  · intro c h1 h2
    unfold Client.handleClose
    rw [h1, h2]
    have h515 : (some DisconnectReason.loggedOut = some DisconnectReason.restartRequired) = False := by
      simp [DisconnectReason.loggedOut, DisconnectReason.restartRequired]
    have h503 : (some DisconnectReason.loggedOut = some DisconnectReason.unavailableService) = False := by
      simp [DisconnectReason.loggedOut, DisconnectReason.unavailableService]
    simp only [h515, Bool.false_eq_true, if_false, if_true, h503]
    norm_num [DisconnectReasons.LOGGED_OUT, DisconnectReasons.CONNECTION_ERROR]
    rcases c.rmError with _ | tag <;> simp
  · intro c h1
    unfold Client.handleClose
    rw [h1]
    simp

/-- Close context for the C4 witness: a non-manual logged-out close. -/
def closeLoggedOutCtx : CloseCtx :=
  ⟨some 401, false, "unknown", false, none, 0⟩

/-- Close context for the C4 witness: a restart-required close. -/
def closeRestartCtx : CloseCtx :=
  ⟨some 515, true, "unknown", true, none, 0⟩

/-- Witness for C4 at concrete inputs. -/
theorem close_classification_witness :
    (Client.handleClose closeLoggedOutCtx).statusTypeOut = some DisconnectReasons.LOGGED_OUT ∧
    (Client.handleClose closeLoggedOutCtx).purgedSession = true ∧
    (Client.handleClose closeRestartCtx).emits = [] :=
  ⟨(close_classification_pure_and_branches.2.1 closeLoggedOutCtx rfl rfl).1,
   (close_classification_pure_and_branches.2.1 closeLoggedOutCtx rfl rfl).2.1,
   (close_classification_pure_and_branches.2.2 closeRestartCtx rfl).1⟩

/-- A connected client with empty store and failing decryption, used as the
concrete client of the normalizer claims. -/
def sampleClient : Client :=
  { user := some ⟨some "Bot"⟩
    sockUserId := "555@s.whatsapp.net"
    jidNormalize := fun j => j.getD ""
    storeGetMessage := fun _ _ => none
    decryptPollVote := fun _ _ => .error "decryption failed"
    hexUpper := fun _ => ""
    sha256hexUpper := fun s => s }

/-- The concrete chat contact of the normalizer claims. -/
def sampleContact : Contact := ⟨some "111@s.whatsapp.net", some "Alice"⟩

/-- Claim C8 (amended): `normalize` resolves to null exactly when the envelope
lacks a `message` payload field, or is an edit wrapper — a `protocolMessage`
carrying `editedMessage` together with the original `key` — which resolves to
null through the arguments-shifted recursive call of the edit defect; every
other envelope with message content yields a non-null CanonicalMessage or
throws, never null. -/
theorem normalize_null_characterization (ct : JsObj) (c : Client) (rm : RawMessage) :
    (MessageNormalizer.normalize ct (.rawMsg rm) (.client c) = .ok none ↔
      rm.message = none ∨
      ∃ m, rm.message = some m ∧
        (m.core.protocolMessage.bind (fun p => p.editedMessage)).isSome = true ∧
        (m.core.protocolMessage.bind (fun p => p.key)).isSome = true) ∧
    (∀ n, MessageNormalizer.normalize ct (.rawMsg rm) (.client c) = .ok (some n) →
      rm.message.isSome = true) := by
  obtain ⟨key, msg, pn, ts, bc, vb⟩ := rm
  constructor
  · constructor
    · intro h
      cases msg with
      | none => exact Or.inl rfl
      | some m =>
        refine Or.inr ⟨m, rfl, ?_⟩
        cases hpm : m.core.protocolMessage.bind (fun p => p.editedMessage) with
        | none =>
          unfold MessageNormalizer.normalize at h
          have h2 := normalizeFuel_succ_nonedit 1 ct (.client c) key m pn ts bc vb hpm
          rw [h2] at h
          exact absurd h (normalizeMain_not_null _ _ _ _ _)
        | some ec =>
          cases hkey : m.core.protocolMessage.bind (fun p => p.key) with
          | none =>
            unfold MessageNormalizer.normalize at h
            have h2 := normalizeFuel_succ_edit_nokey 1 ct (.client c) key m ec pn ts bc vb hpm hkey
            rw [h2] at h
            exact Except.noConfusion h
          | some k0 => exact ⟨rfl, rfl⟩
    · intro h
      rcases h with hnone | ⟨m, hm, hed, hkey⟩
      · have hmsg : msg = none := hnone
        subst hmsg
        rfl
      · have hmsg : msg = some m := hm
        subst hmsg
        obtain ⟨ec, hpm⟩ := Option.isSome_iff_exists.mp hed
        obtain ⟨k0, hk0⟩ := Option.isSome_iff_exists.mp hkey
        unfold MessageNormalizer.normalize
        have h2 := normalizeFuel_succ_edit 1 ct (.client c) key m ec pn ts bc vb k0 hpm hk0
        rw [h2]
        rfl
  · intro n hn
    cases msg with
    | none => exact Option.noConfusion (Except.ok.inj hn)
    | some m => rfl

/-- An envelope carrying no message payload. -/
def emptyEnv : RawMessage :=
  { key := some ⟨some "111@s.whatsapp.net", some "E1", false, none⟩
    message := none, pushName := none, messageTimestamp := none
    broadcast := false, verifiedBizName := none }

/-- Witness for C8 at a concrete input: the envelope without a `message` field
resolves to null via the characterization. -/
theorem normalize_null_witness :
    MessageNormalizer.normalize (.contact sampleContact) (.rawMsg emptyEnv)
      (.client sampleClient) = .ok none :=
  (normalize_null_characterization (.contact sampleContact) sampleClient
    emptyEnv).1.mpr (Or.inl rfl)

/-- A pure protocol/control envelope: `protocolMessage` without an
`editedMessage`, and nothing user-visible. -/
def protocolEnv : RawMessage :=
  { key := some ⟨some "111@s.whatsapp.net", some "PROT1", false, none⟩
    message := some (.mk { MessageContentF.empty with
      protocolMessage := some ⟨none, some ⟨some "111@s.whatsapp.net", some "X1", false, none⟩⟩ })
    pushName := none, messageTimestamp := some 1700
    broadcast := false, verifiedBizName := none }

/-- Counterexample to C8 as stated: a pure protocol/control envelope does not
normalize to null — it yields a non-null message of type `unknown`. -/
theorem protocol_envelope_normalizes_non_null :
    MessageNormalizer.normalize (.contact sampleContact) (.rawMsg protocolEnv)
        (.client sampleClient) ≠ .ok none ∧
    (MessageNormalizer.normalize (.contact sampleContact) (.rawMsg protocolEnv)
        (.client sampleClient)).map
      (Option.map (fun n => (n.core.type, n.core.id)))
      = .ok (some ("unknown", some "PROT1")) := by
  have hmap : (MessageNormalizer.normalize (.contact sampleContact) (.rawMsg protocolEnv)
      (.client sampleClient)).map
      (Option.map (fun n => (n.core.type, n.core.id)))
      = .ok (some ("unknown", some "PROT1")) := rfl
  refine ⟨?_, hmap⟩
  intro h
  rw [h] at hmap
  simp [Except.map] at hmap

/-- The edit envelope of claim C2: an edit wrapper around a replacement text,
carrying the original message key. -/
def editEnv : RawMessage :=
  { key := some ⟨some "111@s.whatsapp.net", some "EDIT1", false, none⟩
    message := some (.mk { MessageContentF.empty with
      protocolMessage := some
        ⟨some (.mk { MessageContentF.empty with conversation := some "hello again" }),
         some ⟨some "111@s.whatsapp.net", some "ORIG1", false, none⟩⟩ })
    pushName := some "Alice", messageTimestamp := some 1700
    broadcast := false, verifiedBizName := none }

/-- Claim C2 (code bug): an edit envelope does not normalize to its inner
replacement content with `isEdited` and the original id — `normalize` resolves
to null, because the recursive call passes two arguments to the
three-parameter signature, so the Client instance occupies the envelope slot
(it has no `message` property) and the `isEdited`/`id` assignments mutate the
unawaited promise object. -/
theorem edit_envelope_normalizes_to_null :
    MessageNormalizer.normalize (.contact sampleContact) (.rawMsg editEnv)
      (.client sampleClient) = .ok none := rfl

/-- The quoted content of claim C3. -/
def quotedContent : MessageContent :=
  .mk { MessageContentF.empty with conversation := some "original text" }

/-- Context info of the reply envelope of claim C3. -/
def replyCtx : ContextInfo :=
  { quotedMessage := some quotedContent, stanzaId := some "Q1"
    participant := some "999@s.whatsapp.net", isForwarded := none
    forwardingScore := none, mentionedJid := none, messageSecret := none }

/-- The reply envelope of claim C3. -/
def replyEnv : RawMessage :=
  { key := some ⟨some "111@s.whatsapp.net", some "MSG2", false, none⟩
    message := some (.mk { MessageContentF.empty with
      extendedTextMessage := some ⟨some "a reply", some replyCtx⟩ })
    pushName := some "Alice", messageTimestamp := some 1700
    broadcast := false, verifiedBizName := none }

/-- Claim C3 (code bug): for a reply envelope the `quotedMessage` field is not
a normalized CanonicalMessage — it holds the unawaited promise of the
two-argument recursive call (`some …`), and that promise resolves to null
(`.ok none`), because the Client instance occupies the envelope slot. -/
theorem reply_quoted_field_is_unresolved_promise_of_null :
    (MessageNormalizer.normalize (.contact sampleContact) (.rawMsg replyEnv)
        (.client sampleClient)).map
      (Option.map (fun n => n.core.quotedMessage))
      = .ok (some (some (.ok none))) := rfl

/-- Peeling one guard off a classification chain that returned a value. -/
theorem iteOkElim {c : Prop} [Decidable c] {a s : String} {rest : Except String String}
    (h : (if c then Except.ok a else rest) = .ok s) : s = a ∨ rest = .ok s := by
  by_cases hc : c
  · rw [if_pos hc] at h
    exact Or.inl (by cases h; rfl)
  · rw [if_neg hc] at h
    exact Or.inr h

/-- Peeling one guard off a classification chain that threw. -/
theorem iteErrElim {c : Prop} [Decidable c] {a : String} {e : String}
    {rest : Except String String}
    (h : (if c then Except.ok a else rest) = .error e) : rest = .error e := by
  by_cases hc : c
  · rw [if_pos hc] at h
    exact absurd h (by simp)
  · rw [if_neg hc] at h
    exact h

/-- The message shapes on which `_getFriendlyType` throws: an
`interactiveMessage` carrying an empty `interactiveButtons` array. -/
def hasEmptyButtons (mo : Option MessageContent) : Prop :=
  ∃ m im, mo = some m ∧ m.core.interactiveMessage = some im ∧
    im.interactiveButtons = some []

/-- The head-name probe fails only on an empty `interactiveButtons` array. -/
theorem interactiveHeadName_error (m : MessageContent) (e : String)
    (h : MessageNormalizer.interactiveHeadName m = .error e) :
    ∃ im, m.core.interactiveMessage = some im ∧ im.interactiveButtons = some [] := by
  unfold MessageNormalizer.interactiveHeadName at h
  split at h
  · exact absurd h (by simp)
  · rename_i im him
    split at h
    · exact absurd h (by simp)
    · rename_i hbs
      exact ⟨im, him, hbs⟩
    · exact absurd h (by simp)

/-- A value returned by the interactive tail is in the enumeration. -/
theorem interactiveFriendlyType_ok (m : MessageContent) (s : String)
    (h : MessageNormalizer.interactiveFriendlyType m = .ok s) :
    s ∈ MessageNormalizer.friendlyTypeValues := by
  unfold MessageNormalizer.interactiveFriendlyType at h
  revert h
  cases hh : MessageNormalizer.interactiveHeadName m with
  | error e => intro h; simp at h
  | ok hd =>
    intro h
    rcases iteOkElim h with rfl | h; · decide
    rcases iteOkElim h with rfl | h; · decide
    rcases iteOkElim h with rfl | h; · decide
    rcases iteOkElim h with rfl | h; · decide
    rcases iteOkElim h with rfl | h; · decide
    rcases iteOkElim h with rfl | h; · decide
    rcases iteOkElim h with rfl | h; · decide
    rcases iteOkElim h with rfl | h; · decide
    rcases iteOkElim h with rfl | h; · decide
    rcases iteOkElim h with rfl | h; · decide
    rcases iteOkElim h with rfl | h; · decide
    rcases iteOkElim h with rfl | h; · decide
    rcases iteOkElim h with rfl | h; · decide
    cases h
    decide

/-- An exception from the interactive tail comes from the empty-buttons
probe. -/
theorem interactiveFriendlyType_error (m : MessageContent) (e : String)
    (h : MessageNormalizer.interactiveFriendlyType m = .error e) :
    ∃ im, m.core.interactiveMessage = some im ∧ im.interactiveButtons = some [] := by
  unfold MessageNormalizer.interactiveFriendlyType at h
  revert h
  cases hh : MessageNormalizer.interactiveHeadName m with
  | error e2 =>
    intro _
    exact interactiveHeadName_error m e2 hh
  | ok hd =>
    intro h
    replace h := iteErrElim h
    replace h := iteErrElim h
    replace h := iteErrElim h
    replace h := iteErrElim h
    replace h := iteErrElim h
    replace h := iteErrElim h
    replace h := iteErrElim h
    replace h := iteErrElim h
    replace h := iteErrElim h
    replace h := iteErrElim h
    replace h := iteErrElim h
    replace h := iteErrElim h
    replace h := iteErrElim h
    cases h

/-- Claim C9 (amended): `_getFriendlyType` returns a string from its
friendly-type enumeration (with `unknown` for unrecognized variants) for every
message shape except one whose earliest-matching variant is an
`interactiveMessage` with an empty `interactiveButtons` array, where
`interactiveButtons[0].name` throws a TypeError. -/
theorem getFriendlyType_total_except_empty_buttons (mo : Option MessageContent) :
    (∀ s, MessageNormalizer.getFriendlyType mo = .ok s →
      s ∈ MessageNormalizer.friendlyTypeValues) ∧
    (∀ e, MessageNormalizer.getFriendlyType mo = .error e → hasEmptyButtons mo) := by
  constructor
  · intro s hs
    cases mo with
    | none =>
      rw [MessageNormalizer.getFriendlyType] at hs
      cases hs
      decide
    | some m =>
      rw [MessageNormalizer.getFriendlyType] at hs
      rcases iteOkElim hs with rfl | hs; · decide
      rcases iteOkElim hs with rfl | hs; · decide
      rcases iteOkElim hs with rfl | hs; · decide
      rcases iteOkElim hs with rfl | hs; · decide
      rcases iteOkElim hs with rfl | hs; · decide
      rcases iteOkElim hs with rfl | hs; · decide
      rcases iteOkElim hs with rfl | hs; · decide
      rcases iteOkElim hs with rfl | hs; · decide
      rcases iteOkElim hs with rfl | hs; · decide
      rcases iteOkElim hs with rfl | hs; · decide
      rcases iteOkElim hs with rfl | hs; · decide
      rcases iteOkElim hs with rfl | hs; · decide
      rcases iteOkElim hs with rfl | hs; · decide
      rcases iteOkElim hs with rfl | hs; · decide
      rcases iteOkElim hs with rfl | hs; · decide
      rcases iteOkElim hs with rfl | hs; · decide
      rcases iteOkElim hs with rfl | hs; · decide
      rcases iteOkElim hs with rfl | hs; · decide
      exact interactiveFriendlyType_ok m s hs
  · intro e he
    cases mo with
    | none => rw [MessageNormalizer.getFriendlyType] at he; cases he
    | some m =>
      rw [MessageNormalizer.getFriendlyType] at he
      replace he := iteErrElim he
      replace he := iteErrElim he
      replace he := iteErrElim he
      replace he := iteErrElim he
      replace he := iteErrElim he
      replace he := iteErrElim he
      replace he := iteErrElim he
      replace he := iteErrElim he
      replace he := iteErrElim he
      replace he := iteErrElim he
      replace he := iteErrElim he
      replace he := iteErrElim he
      replace he := iteErrElim he
      replace he := iteErrElim he
      replace he := iteErrElim he
      replace he := iteErrElim he
      replace he := iteErrElim he
      replace he := iteErrElim he
      obtain ⟨im, h1, h2⟩ := interactiveFriendlyType_error m e he
      exact ⟨m, im, rfl, h1, h2⟩

/-- A text message fixture for the C9 witness. -/
def textOnlyMsg : MessageContent :=
  .mk { MessageContentF.empty with conversation := some "hi" }

/-- Witness for C9 at a concrete input. -/
theorem getFriendlyType_witness : "text" ∈ MessageNormalizer.friendlyTypeValues :=
  (getFriendlyType_total_except_empty_buttons (some textOnlyMsg)).1 "text" rfl

/-- An interactive message with an empty button array. -/
def emptyButtonsMsg : MessageContent :=
  .mk { MessageContentF.empty with interactiveMessage := some ⟨some [], none, none⟩ }

/-- Counterexample to C9 as stated: `_getFriendlyType` is not total — an
`interactiveMessage` with an empty `interactiveButtons` array throws instead
of classifying. -/
theorem getFriendlyType_throws_on_empty_buttons :
    MessageNormalizer.getFriendlyType (some emptyButtonsMsg)
      = .error "TypeError: cannot read name of undefined" := rfl

/-- Claim C1 (amended): for a poll-update envelope with a well-formed key,
`_extractPollUpdate` (i) returns null — not a degraded PollState — when the
referenced creation message is absent from the store; (ii) converts every
exception of the protected region into the degraded PollState carrying the
thrown message and empty selections; (iii) degrades with
"Poll creation message not found" when the creation record lacks the poll
structure; (iv) degrades with "Incomplete poll creation data" when the
secret/name/options fields are missing; and (v) never lets an exception
propagate to the caller. -/
theorem pollUpdate_missing_creation_and_failure_behavior
    (msg : RawMessage) (cl : Client) (k : MsgKey) (rj : String)
    (pu : PollUpdateMsgF MessageContent) (ck : MsgKey)
    (hk : msg.key = some k) (hrj : k.remoteJid = some rj)
    (hpu : msg.message.bind (fun mc => mc.core.pollUpdateMessage) = some pu)
    (hck : pu.pollCreationMessageKey = some ck) :
    (cl.storeGetMessage ck.remoteJid ck.id = none →
      MessageNormalizer.extractPollUpdate msg cl = .ok none) ∧
    (∀ e, MessageNormalizer.pollUpdateTry (rj.endsWith "@g.us")
        (cl.jidNormalize (some cl.sockUserId)) k cl pu ck = .error e →
      MessageNormalizer.extractPollUpdate msg cl
        = .ok (some (MessageNormalizer.degradedPollUpd ck pu e)) ∧
      (MessageNormalizer.degradedPollUpd ck pu e).selectedOptions = [] ∧
      (MessageNormalizer.degradedPollUpd ck pu e).error = some e) ∧
    (∀ cm craw cmsg, cl.storeGetMessage ck.remoteJid ck.id = some cm →
      cm.raw = some craw → craw.message = some cmsg →
      jsOrOpt cmsg.core.pollCreationMessage cmsg.core.pollCreationMessageV3 = none →
      MessageNormalizer.extractPollUpdate msg cl
        = .ok (some (MessageNormalizer.degradedPollUpd ck pu
            "Poll creation message not found"))) ∧
    (∀ cm craw cmsg poll ci, cl.storeGetMessage ck.remoteJid ck.id = some cm →
      cm.raw = some craw → craw.message = some cmsg →
      jsOrOpt cmsg.core.pollCreationMessage cmsg.core.pollCreationMessageV3 = some poll →
      cmsg.core.messageContextInfo = some ci →
      (ci.messageSecret.isNone ∨ ¬ jsTruthyStr poll.name ∨ poll.options.isNone) →
      MessageNormalizer.extractPollUpdate msg cl
        = .ok (some (MessageNormalizer.degradedPollUpd ck pu
            "Incomplete poll creation data"))) ∧
    (∀ e, MessageNormalizer.extractPollUpdate msg cl ≠ .error e) := by
  have hext : MessageNormalizer.extractPollUpdate msg cl =
      match MessageNormalizer.pollUpdateTry (rj.endsWith "@g.us")
          (cl.jidNormalize (some cl.sockUserId)) k cl pu ck with
      | .ok v => .ok v
      | .error e => .ok (some (MessageNormalizer.degradedPollUpd ck pu e)) := by
    unfold MessageNormalizer.extractPollUpdate
    rw [hk]
    simp only []
    rw [hrj]
    simp only []
    rw [hpu]
    simp only []
    rw [hck]
  refine ⟨?_, ?_, ?_, ?_, ?_⟩
  · intro hstore
    have htry : MessageNormalizer.pollUpdateTry (rj.endsWith "@g.us")
        (cl.jidNormalize (some cl.sockUserId)) k cl pu ck = .ok none := by
      unfold MessageNormalizer.pollUpdateTry
      rw [hstore]
    rw [hext, htry]
  · intro e htry
    rw [hext, htry]
    exact ⟨rfl, rfl, rfl⟩
  · intro cm craw cmsg hstore hraw hmsg heff
    have htry : MessageNormalizer.pollUpdateTry (rj.endsWith "@g.us")
        (cl.jidNormalize (some cl.sockUserId)) k cl pu ck
        = .ok (some (MessageNormalizer.degradedPollUpd ck pu
            "Poll creation message not found")) := by
      unfold MessageNormalizer.pollUpdateTry
      rw [hstore]
      simp only []
      rw [hraw]
      simp only []
      rw [hmsg]
      simp only []
      rw [heff]
    rw [hext, htry]
  · intro cm craw cmsg poll ci hstore hraw hmsg heff hci hmissing
    have htry : MessageNormalizer.pollUpdateTry (rj.endsWith "@g.us")
        (cl.jidNormalize (some cl.sockUserId)) k cl pu ck
        = .ok (some (MessageNormalizer.degradedPollUpd ck pu
            "Incomplete poll creation data")) := by
      unfold MessageNormalizer.pollUpdateTry
      rw [hstore]
      simp only []
      rw [hraw]
      simp only []
      rw [hmsg]
      simp only []
      rw [heff]
      simp only []
      rw [hci]
      simp only []
      rw [if_pos hmissing]
    rw [hext, htry]
  · intro e
    rw [hext]
    cases MessageNormalizer.pollUpdateTry (rj.endsWith "@g.us")
        (cl.jidNormalize (some cl.sockUserId)) k cl pu ck <;> simp

/-- Key of the referenced poll creation message. -/
def pollVoteKey : MsgKey := ⟨some "111@s.whatsapp.net", some "POLL1", false, none⟩

/-- The poll-update payload of the C1 fixtures. -/
def samplePollUpdate : PollUpdateMsgF MessageContent :=
  { pollCreationMessageKey := some pollVoteKey, vote := some 7
    senderTimestampMs := some 1700, contextInfo := none }

/-- A poll-update envelope referencing `pollVoteKey`. -/
def pollUpdateEnv : RawMessage :=
  { key := some ⟨some "111@s.whatsapp.net", some "VOTE1", false, none⟩
    message := some (.mk { MessageContentF.empty with
      pollUpdateMessage := some samplePollUpdate })
    pushName := none, messageTimestamp := some 1700
    broadcast := false, verifiedBizName := none }

/-- Counterexample to C1 as stated: with the creation message absent from the
store, `_extractPollUpdate` returns null, not a degraded PollState with an
error reason. -/
theorem pollUpdate_absent_creation_returns_null :
    MessageNormalizer.extractPollUpdate pollUpdateEnv sampleClient = .ok none := rfl

/-- A stored creation message lacking the `messageSecret` needed for
decryption. -/
def incompleteCreationStored : StoredMsg :=
  ⟨some { key := some pollVoteKey
          message := some (.mk { MessageContentF.empty with
            pollCreationMessage := some
              { name := some "Lunch?", options := some [⟨some "Yes", none⟩]
                selectableOptionsCount := some 1, messageTimestamp := none
                contextInfo := none }
            messageContextInfo := some
              { quotedMessage := none, stanzaId := none, participant := none
                isForwarded := none, forwardingScore := none
                mentionedJid := none, messageSecret := none } })
          pushName := none, messageTimestamp := none
          broadcast := false, verifiedBizName := none }⟩

/-- A client whose store returns the incomplete creation record. -/
def pollClient : Client :=
  { sampleClient with storeGetMessage := fun _ _ => some incompleteCreationStored }

/-- Witness for C1 at a concrete input: incomplete creation data degrades with
the explicit error reason and empty selections. -/
theorem pollUpdate_failure_behavior_witness :
    MessageNormalizer.extractPollUpdate pollUpdateEnv pollClient
      = .ok (some (MessageNormalizer.degradedPollUpd pollVoteKey samplePollUpdate
          "Incomplete poll creation data")) :=
  (pollUpdate_missing_creation_and_failure_behavior pollUpdateEnv pollClient
      ⟨some "111@s.whatsapp.net", some "VOTE1", false, none⟩ "111@s.whatsapp.net"
      samplePollUpdate pollVoteKey rfl rfl rfl rfl).2.2.2.1
    incompleteCreationStored _ _ _ _ rfl rfl rfl rfl rfl (Or.inl rfl)

/-- The upsert-handler client backed by the repository MessageStore over the
given file state. -/
def upsertClient (fs : FS) : ClientH :=
  { base := sampleClient
    contactsCache := fun j =>
      if j = "111@s.whatsapp.net" then some sampleContact else none
    pnForLid := fun _ => none
    normalizeContact := fun _ => ⟨none, none⟩
    store := some (messageStoreObj fs) }

/-- A plain incoming text envelope. -/
def upsertEnv : RawMessage :=
  { key := some ⟨some "111@s.whatsapp.net", some "MSG1", false, none⟩
    message := some (.mk { MessageContentF.empty with conversation := some "hello" })
    pushName := some "Alice", messageTimestamp := some 1700
    broadcast := false, verifiedBizName := none }

/-- The upsert event delivering `upsertEnv` with type `notify`. -/
def upsertEv : UpsertEvent := ⟨[upsertEnv], "notify"⟩

/-- Claim C5 (code bug): with the repository MessageStore as the client's
store, the `messages.upsert` handler never writes to the store — the guarded
call is `this.store?.setMessage(nmsg.chatId, nmsg)`, and `MessageStore`
defines `saveMessage`/`getMessage`/`getMessages` but no `setMessage` (and the
normalized record has no `chatId` field).  Consequently, for the concrete
incoming text envelope the handler emits `message_received` while the store
still resolves `getMessage(chatId, id)` to nothing. -/
theorem upsert_handler_never_persists_with_default_store :
    (∀ (fs : FS) (ev : UpsertEvent),
      (Client.handleMessagesUpsert (upsertClient fs) ev).store
        = some (messageStoreObj fs)) ∧
    (Client.handleMessagesUpsert (upsertClient emptyFS) upsertEv).emits.map Prod.fst
      = [ClientEvent.MESSAGE_RECEIVED] ∧
    MessageStore.getMessage
      (((Client.handleMessagesUpsert (upsertClient emptyFS) upsertEv).store.getD
          (messageStoreObj emptyFS)).state)
      "111@s.whatsapp.net" (.strV "MSG1") = .ok none := by
  refine ⟨?_, rfl, rfl⟩
  intro fs ev
  have hfinish : ∀ k t res, (Client.upsertFinish (upsertClient fs) k t res).store
      = some (messageStoreObj fs) := by
    intro k t res
    cases res with
    | error e => rfl
    | ok nmsg => cases nmsg <;> rfl
  unfold Client.handleMessagesUpsert
  repeat'
    first
      | rfl
      | exact hfinish _ _ _
      | split

end Claims

end Baileys
